import Mathlib

/-!
Gravity Swap Arena: the per-frame simulation of `game.js`.

A shallow embedding of the simulation core of `src/game.js`:
`Player.update`, `Player.applyPhysics`, `Player.checkSpikes`, `Player.die`,
`Player.respawn`, `checkCombat`, `endGame` and the game-loop `update`.

Numbers.  JavaScript numbers are modelled exactly: coordinates and velocities
are rationals (`GRAVITY_FORCE = 0.5`, so every value the game produces is a
dyadic rational), counters and the sign flags `gravityDir`, `facing` are
integers.  Rounding, overflow, `NaN` and infinities of IEEE doubles are not
modelled.

Globals.  `this` is passed and returned explicitly.  The global `keys` table is
a function from key names to `Bool` (a missing entry is falsy).  `canvas.width`
and `canvas.height` come from the HTML page, which is not part of the sources,
and are a parameter `Canvas`.  The DOM effects (`updateUI`, the winner message,
the reload timer, `requestAnimationFrame`) are recorded in `MatchState`.
-/

namespace GravitySwapArena

/-! ## Configuration (game.js lines 5-11) -/

def GRAVITY_FORCE : ℚ := 1 / 2
def JUMP_FORCE : ℚ := 12
def SPEED : ℚ := 5
def SWAP_COOLDOWN : Int := 90
def ATTACK_COOLDOWN : Int := 30
def ATTACK_DURATION : Int := 10
def KNOCKBACK : ℚ := 10

/-! ## Data model -/

/-- The control mapping of a player: logical control to key name. -/
structure Controls where
  left : String
  right : String
  jump : String
  swap : String
  atk : String
deriving DecidableEq, Repr

/-- The fields of `class Player` (constructor, lines 20-42). -/
structure Player where
  id : Int
  x : ℚ
  y : ℚ
  w : ℚ
  h : ℚ
  vx : ℚ
  vy : ℚ
  color : String
  lives : Int
  gravityDir : Int
  swapTimer : Int
  isAttacking : Bool
  attackTimer : Int
  attackCooldownTimer : Int
  facing : Int
  stunned : Int
  ctrl : Controls
deriving DecidableEq, Repr

/-- One entry of the `platforms` array. -/
structure Platform where
  x : ℚ
  y : ℚ
  w : ℚ
  h : ℚ
deriving DecidableEq, Repr

/-- The size of the canvas element (`canvas.width`, `canvas.height`). -/
structure Canvas where
  width : ℚ
  height : ℚ
deriving DecidableEq, Repr

/-- The global `keys` table: `keys[name]` read as a condition. -/
abbrev Keys := String → Bool

/-- The global match state and the recorded effects on the page:
`gameOver` is the global flag; `winnerMsg` is the winner id written into the
`winnerMsg` element (`none` before the first `endGame`); `reloadTimers` counts
the scheduled `setTimeout(reload, 3000)`; `uiUpdates` counts `updateUI()`
calls; `frameRequests` counts `requestAnimationFrame(update)` calls. -/
structure MatchState where
  gameOver : Bool
  winnerMsg : Option Int
  reloadTimers : Nat
  uiUpdates : Nat
  frameRequests : Nat
deriving DecidableEq, Repr

/-- The two players and the match state: the whole mutable global state. -/
structure Game where
  p1 : Player
  p2 : Player
  m : MatchState
deriving DecidableEq, Repr

/-- The constructor `new Player(id, x, color, controls)` (lines 20-42). -/
def Player.new (id : Int) (x : ℚ) (color : String) (controls : Controls) : Player :=
  { id := id, x := x, y := 300, w := 30, h := 30, vx := 0, vy := 0, color := color,
    lives := 3, gravityDir := 1, swapTimer := 0, isAttacking := false,
    attackTimer := 0, attackCooldownTimer := 0, facing := 1, stunned := 0,
    ctrl := controls }

/-- The `platforms` array (lines 216-222); index 0 is the central platform. -/
def platforms : List Platform :=
  [ { x := 250, y := 280, w := 600, h := 40 },
    { x := 50, y := 400, w := 100, h := 20 },
    { x := 950, y := 400, w := 100, h := 20 },
    { x := 50, y := 180, w := 100, h := 20 },
    { x := 950, y := 180, w := 100, h := 20 } ]

/-- Player 1 as created at line 225. -/
def p1 : Player :=
  Player.new 1 100 "#44aaff"
    { left := "a", right := "d", jump := "w", swap := "s", atk := "q" }

/-- Player 2 as created at line 226. -/
def p2 : Player :=
  Player.new 2 970 "#ffaa44"
    { left := "ArrowLeft", right := "ArrowRight", jump := "ArrowUp",
      swap := "ArrowDown", atk := "k" }

/-- The match state when the script starts (`let gameOver = false`). -/
def MatchState.init : MatchState :=
  { gameOver := false, winnerMsg := none, reloadTimers := 0, uiUpdates := 0,
    frameRequests := 0 }

/-- The global state when the script starts. -/
def Game.init : Game :=
  { p1 := GravitySwapArena.p1, p2 := GravitySwapArena.p2, m := MatchState.init }

/-! ## Match end and UI (lines 296-311) -/

/-- The function `updateUI()`: rewrites the two score texts from the lives. -/
def updateUI (m : MatchState) : MatchState :=
  { m with uiUpdates := m.uiUpdates + 1 }

/-- The function `endGame(winnerId)` (lines 301-311): sets the flag, writes
the winner message and schedules the reload. There is no test of `gameOver`. -/
def endGame (winnerId : Int) (m : MatchState) : MatchState :=
  { m with gameOver := true, winnerMsg := some winnerId,
           reloadTimers := m.reloadTimers + 1 }

/-! ## Player methods -/

/-- The method `respawn()` (lines 163-173). -/
def Player.respawn (p : Player) : Player :=
  let p := { p with vx := 0 }
  let p := { p with vy := 0 }
  let p := { p with gravityDir := 1 }
  let p := { p with stunned := 0 }
  if p.id = 1 then { p with x := 100, y := 300 }
  else { p with x := 670, y := 300 }

/-- The method `die()` (lines 153-161). -/
def Player.die (p : Player) (m : MatchState) : Player × MatchState :=
  let p := { p with lives := p.lives - 1 }
  let m := updateUI m
  if p.lives ≤ 0 then (p, endGame (if p.id = 1 then 2 else 1) m)
  else (p.respawn, m)

/-- The condition of `checkSpikes()` (line 148): the player touches the top
or the bottom spike band. -/
def Player.inSpikes (cv : Canvas) (p : Player) : Prop :=
  p.y < 20 ∨ p.y + p.h > cv.height - 20

instance (cv : Canvas) (p : Player) : Decidable (p.inSpikes cv) := by
  unfold Player.inSpikes; infer_instance

/-- The method `checkSpikes()` (lines 146-151). -/
def Player.checkSpikes (cv : Canvas) (p : Player) (m : MatchState) :
    Player × MatchState :=
  if p.inSpikes cv then p.die m else (p, m)

/-- The body of the `platforms.forEach` callback (lines 125-138). -/
def Player.collide (p : Player) (pl : Platform) : Player :=
  if p.x < pl.x + pl.w ∧ p.x + p.w > pl.x ∧ p.y < pl.y + pl.h ∧ p.y + p.h > pl.y then
    if p.vy > 0 ∧ p.gravityDir = 1 ∧ p.y + p.h < pl.y + pl.h then
      { p with y := pl.y - p.h, vy := 0 }
    else if p.vy < 0 ∧ p.gravityDir = -1 ∧ p.y > pl.y then
      { p with y := pl.y + pl.h, vy := 0 }
    else p
  else p

/-- The method `applyPhysics()` (lines 118-144) over a given platform list. -/
def Player.applyPhysicsOn (cv : Canvas) (ps : List Platform) (p : Player) : Player :=
  let p := { p with vy := p.vy + GRAVITY_FORCE * (p.gravityDir : ℚ) }
  let p := { p with x := p.x + p.vx }
  let p := { p with y := p.y + p.vy }
  let p := ps.foldl Player.collide p
  let p := if p.x < 0 then { p with x := 0 } else p
  if p.x + p.w > cv.width then { p with x := cv.width - p.w } else p

/-- The method `applyPhysics()` on the global `platforms`. -/
def Player.applyPhysics (cv : Canvas) (p : Player) : Player :=
  p.applyPhysicsOn cv platforms

/-- The cooldown countdown at the start of `Player.update` (lines 48-49). -/
def Player.cooldowns (p : Player) : Player :=
  let p := if p.swapTimer > 0 then { p with swapTimer := p.swapTimer - 1 } else p
  if p.attackCooldownTimer > 0 then
    { p with attackCooldownTimer := p.attackCooldownTimer - 1 }
  else p

/-- The test of lines 70-80 on the central platform `platforms[0]`. -/
def Player.onCentral (p : Player) : Bool :=
  let c := platforms.get ⟨0, by decide⟩
  if p.gravityDir = 1 ∧ p.y + p.h ≥ c.y ∧ p.y ≤ c.y + c.h ∧ p.x + p.w > c.x ∧
      p.x < c.x + c.w then true
  else if p.gravityDir = -1 ∧ p.y ≤ c.y + c.h ∧ p.y + p.h ≥ c.y ∧ p.x + p.w > c.x ∧
      p.x < c.x + c.w then true
  else false

/-- One round of the loop over the small platforms (lines 84-88). -/
def Player.onSmall (p : Player) (onGround : Bool) (pl : Platform) : Bool :=
  if p.x + p.w > pl.x ∧ p.x < pl.x + pl.w then
    let onGround :=
      if p.gravityDir = 1 ∧ |(p.y + p.h) - pl.y| < 10 then true else onGround
    if p.gravityDir = -1 ∧ |p.y - (pl.y + pl.h)| < 10 then true else onGround
  else onGround

/-- The value of the local `onGround` at line 91. -/
def Player.onGround (p : Player) : Bool :=
  (platforms.drop 1).foldl p.onSmall p.onCentral

/-- The left/right movement of `Player.update` (lines 58-66). -/
def Player.move (keys : Keys) (p : Player) : Player :=
  if keys p.ctrl.left then { p with vx := -SPEED, facing := -1 }
  else if keys p.ctrl.right then { p with vx := SPEED, facing := 1 }
  else { p with vx := 0 }

/-- The jump of `Player.update` (lines 69-93). -/
def Player.jump (keys : Keys) (p : Player) : Player :=
  let onGround := p.onGround
  if keys p.ctrl.jump ∧ onGround then
    { p with vy := -JUMP_FORCE * (p.gravityDir : ℚ) }
  else p

/-- The gravity swap of `Player.update` (lines 96-100). -/
def Player.swap (keys : Keys) (p : Player) : Player :=
  if keys p.ctrl.swap ∧ p.swapTimer = 0 then
    { p with gravityDir := p.gravityDir * -1, swapTimer := SWAP_COOLDOWN, vy := 0 }
  else p

/-- The attack start and the attack countdown of `Player.update`
(lines 103-112). -/
def Player.attack (keys : Keys) (p : Player) : Player :=
  let p :=
    if keys p.ctrl.atk ∧ p.attackCooldownTimer = 0 then
      { p with isAttacking := true, attackTimer := ATTACK_DURATION,
               attackCooldownTimer := ATTACK_COOLDOWN }
    else p
  if p.isAttacking then
    let p := { p with attackTimer := p.attackTimer - 1 }
    if p.attackTimer ≤ 0 then { p with isAttacking := false } else p
  else p

/-- The control processing of `Player.update` (lines 56-112), in the order of
the source: movement, jump, gravity swap, attack. -/
def Player.controls (keys : Keys) (p : Player) : Player :=
  (((p.move keys).jump keys).swap keys).attack keys

/-- The method `update()` of `Player` (lines 44-116). -/
def Player.update (keys : Keys) (cv : Canvas) (p : Player) (m : MatchState) :
    Player × MatchState :=
  if p.lives ≤ 0 then (p, m)
  else
    let p := p.cooldowns
    if p.stunned > 0 then
      let p := { p with stunned := p.stunned - 1 }
      (p.applyPhysics cv, m)
    else
      let p := p.controls keys
      let p := p.applyPhysics cv
      p.checkSpikes cv m

/-! ## Combat and the game loop (lines 229-258) -/

/-- The function `checkCombat(attacker, defender)` (lines 243-258); the pair
returned is (attacker, defender) after the call. -/
def checkCombat (attacker defender : Player) : Player × Player :=
  if attacker.isAttacking ∧ attacker.attackTimer > 0 ∧ defender.stunned = 0 then
    let atkX := if attacker.facing = 1 then attacker.x + attacker.w else attacker.x - 40
    let atkW : ℚ := 40
    if atkX < defender.x + defender.w ∧ atkX + atkW > defender.x ∧
        attacker.y < defender.y + defender.h ∧ attacker.y + 10 > defender.y then
      (attacker,
        { defender with stunned := 20,
                        vx := (attacker.facing : ℚ) * KNOCKBACK,
                        vy := -5 * (defender.gravityDir : ℚ) })
    else (attacker, defender)
  else (attacker, defender)

/-- The game-loop function `update()` (lines 229-241): one tick. `draw()` only
reads the state. -/
def update (keys : Keys) (cv : Canvas) (g : Game) : Game :=
  if g.m.gameOver then g
  else
    let r1 := g.p1.update keys cv g.m
    let r2 := g.p2.update keys cv r1.2
    let c1 := checkCombat r1.1 r2.1
    let c2 := checkCombat c1.2 c1.1
    { p1 := c2.2, p2 := c2.1,
      m := { r2.2 with frameRequests := r2.2.frameRequests + 1 } }

/-- Several ticks under a constant key state. -/
def run (keys : Keys) (cv : Canvas) : Nat → Game → Game
  | 0, g => g
  | n + 1, g => run keys cv n (update keys cv g)

/-- Several frames of `Player.update` under a constant key state. -/
def Player.frames (keys : Keys) (cv : Canvas) : Nat → Player × MatchState → Player × MatchState
  | 0, s => s
  | n + 1, s => Player.frames keys cv n (Player.update keys cv s.1 s.2)

/-- A canvas of 1100 by 600 pixels, large enough for the five platforms; used
for concrete runs only. -/
def arena : Canvas := { width := 1100, height := 600 }

/-- The event handler of `keyup` (line 315): `keys[e.key] = false`. -/
def keyup (keys : Keys) (key : String) : Keys :=
  fun k => if k = key then false else keys k

/-- The event handler of `keydown` (line 314): `keys[e.key] = true`. -/
def keydown (keys : Keys) (key : String) : Keys :=
  fun k => if k = key then true else keys k

/-- The empty `keys` table: no key is held. -/
def noKeys : Keys := fun _ => false

/-! ## Concrete states used by the evaluations below -/

/-- Player 1 on its last life, rising under inverted gravity just below the top
spikes, in the middle of an attack to the right. -/
def lastLifeAttacker : Player :=
  { p1 with y := 22, vy := -4, gravityDir := -1, lives := 1, isAttacking := true,
            attackTimer := 5, attackCooldownTimer := 25 }

/-- Player 2 next to `lastLifeAttacker`, attacking to the left. -/
def neighbour : Player :=
  { p2 with x := 140, y := 25, facing := -1, isAttacking := true,
            attackTimer := 5, attackCooldownTimer := 25 }

/-- A tick is about to run with player 1 on its last life. -/
def lastLifeBrawl : Game :=
  { p1 := lastLifeAttacker, p2 := neighbour, m := MatchState.init }

/-- Player 1 after a hit: stunned for 20 frames and thrown up towards the top
spikes. -/
def knockedUp : Player :=
  { p1 with y := 22, vx := 10, vy := -5, stunned := 20 }

/-- Both players on their last life and inside the top spike band. -/
def doubleKO : Game :=
  { p1 := { p1 with y := 10, lives := 1 },
    p2 := { p2 with y := 10, lives := 1 },
    m := MatchState.init }

/-- Player 1 standing on top of the central platform. -/
def onCentralTop : Player := { p1 with x := 300, y := 250 }

/-- Player 1 one frame after a gravity swap: the swap timer was just reset. -/
def afterSwap : Player :=
  { p1 with y := 599 / 2, vy := -1 / 2, gravityDir := -1, swapTimer := 90 }

/-- Ticks of the game loop under a list of key states, one per tick. -/
def runKeys (cv : Canvas) : List Keys → Game → Game
  | [], g => g
  | k :: ks, g => runKeys cv ks (update k cv g)

/-- The state after `n` frames of `Player.update`, frame `i` reading the key
state `ks i`. -/
def Player.framesWith (ks : Nat → Keys) (cv : Canvas) :
    Nat → Player × MatchState → Player × MatchState
  | 0, s => s
  | n + 1, s =>
    Player.update (ks n) cv (Player.framesWith ks cv n s).1 (Player.framesWith ks cv n s).2

/-- Every key held. -/
def allKeys : Keys := fun _ => true

/-- The ranges of the sign flags and counters of a player: gravityDir and
facing are -1 or 1, swapTimer is in 0..SWAP_COOLDOWN, lives is in 0..3. -/
def Player.inRange (p : Player) : Prop :=
  (p.gravityDir = 1 ∨ p.gravityDir = -1) ∧ (p.facing = 1 ∨ p.facing = -1) ∧
  0 ≤ p.swapTimer ∧ p.swapTimer ≤ SWAP_COOLDOWN ∧ 0 ≤ p.lives ∧ p.lives ≤ 3

instance (p : Player) : Decidable p.inRange := by
  unfold Player.inRange; infer_instance

/-- Player 1 under normal gravity inside the lower half of the central
platform: its bottom edge (y + h = 340) is below the platform (280..320). -/
def sunkInCentral : Player := { p1 with x := 300, y := 310 }

/-- Player 1 under inverted gravity touching the top of the central platform:
its top edge (y = 250) is above the platform (280..320). -/
def invertedOnTop : Player := { p1 with x := 300, y := 250, gravityDir := -1 }

/-- Player 1 standing on the lower left platform (top at y = 400). -/
def restingLowLeft : Player := { p1 with x := 100, y := 370 }

/-- Player 1 standing on the underside of the central platform (bottom at
y = 320) under inverted gravity. -/
def hangingUnderCentral : Player := { p1 with x := 300, y := 320, gravityDir := -1 }

/-- The attack key of player 1 held on every frame. -/
def attackHeld : Nat → Keys := fun _ => keydown noKeys "q"

/-- Player 1 thrown up towards the top spikes as `knockedUp`, but not stunned. -/
def thrownUp : Player := { knockedUp with stunned := 0 }

/-! ## Theorems -/

/-- C1 (evaluation of the code): `checkCombat` has no test of `lives`. In the
tick in which player 1 loses its last life (lives 1 to 0, the match becomes
Over), the first combat check lets the eliminated player 1 stun player 2
(stunned 20, vx 10, vy -5) and the second one lets player 2 stun and knock back
the eliminated player 1 (stunned 20, vx -10, vy 5). -/
theorem C1_checkCombat_ignores_lives :
    lastLifeBrawl.p1.lives = 1 ∧ lastLifeBrawl.p2.stunned = 0 ∧
    (update noKeys arena lastLifeBrawl).p1.lives = 0 ∧
    (update noKeys arena lastLifeBrawl).m.gameOver = true ∧
    (update noKeys arena lastLifeBrawl).p2.stunned = 20 ∧
    (update noKeys arena lastLifeBrawl).p2.vx = 10 ∧
    (update noKeys arena lastLifeBrawl).p2.vy = -5 ∧
    (update noKeys arena lastLifeBrawl).p1.stunned = 20 ∧
    (update noKeys arena lastLifeBrawl).p1.vx = -10 ∧
    (update noKeys arena lastLifeBrawl).p1.vy = 5 ∧
    (checkCombat { lastLifeAttacker with lives := 0 } neighbour).2.stunned = 20 ∧
    (checkCombat neighbour { lastLifeAttacker with lives := 0 }).2.stunned = 20 := by
  decide!

/-- C2 (counterexample): a living player that is stunned does not lose
a life in the spikes. Player 1 with 3 lives, stunned for 20 frames, is carried
by this frame's physics to y = 17.5 < 20; `Player.update` returns with
lives = 3, the match state untouched and the player still inside the band. -/
theorem C2_stunned_player_survives_spikes :
    knockedUp.lives = 3 ∧ knockedUp.stunned = 20 ∧
    (Player.update noKeys arena knockedUp MatchState.init).1.y = 35 / 2 ∧
    (Player.update noKeys arena knockedUp MatchState.init).1.inSpikes arena ∧
    (Player.update noKeys arena knockedUp MatchState.init).1.lives = 3 ∧
    (Player.update noKeys arena knockedUp MatchState.init).2 = MatchState.init := by
  decide!

/-- C3 (evaluation of the code): `endGame` on a match that is already Over
changes the
state: the winner recorded by `endGame(2)` is replaced by that of `endGame(1)`
and a second reload timer is scheduled; and in one tick in which both players
lose their last life the match is ended twice (two timers, winner 1 shown). -/
theorem C3_endGame_not_idempotent :
    (endGame 2 MatchState.init).gameOver = true ∧
    endGame 1 (endGame 2 MatchState.init) ≠ endGame 2 MatchState.init ∧
    (endGame 1 (endGame 2 MatchState.init)).winnerMsg = some 1 ∧
    (endGame 1 (endGame 2 MatchState.init)).reloadTimers = 2 ∧
    (update noKeys arena doubleKO).p1.lives = 0 ∧
    (update noKeys arena doubleKO).p2.lives = 0 ∧
    (update noKeys arena doubleKO).m.reloadTimers = 2 ∧
    (update noKeys arena doubleKO).m.winnerMsg = some 1 := by
  decide!

/-- C4 (evaluation of the code): `respawn()` puts player 2 at x = 670, while the
constructor call of line 226 created it at x = 970; for player 1 both are
(100, 300). -/
theorem C4_respawn_p2_not_at_spawn :
    (p2.x, p2.y) = (970, 300) ∧
    (p2.respawn.x, p2.respawn.y) = (670, 300) ∧
    (p2.respawn.x, p2.respawn.y) ≠ (p2.x, p2.y) ∧
    (p1.respawn.x, p1.respawn.y) = (p1.x, p1.y) := by
  decide!

/-! ### Frame lemmas: which fields each stage can write -/

/-- The cooldown countdown writes `swapTimer` and `attackCooldownTimer` only. -/
theorem Player.cooldowns_writes (p : Player) :
    ∃ a b, p.cooldowns = { p with swapTimer := a, attackCooldownTimer := b } := by
  unfold Player.cooldowns
  dsimp only
  split_ifs <;> exact ⟨_, _, rfl⟩

/-- One collision test writes `y` and `vy` only. -/
theorem Player.collide_writes (p : Player) (pl : Platform) :
    ∃ y vy, p.collide pl = { p with y := y, vy := vy } := by
  unfold Player.collide
  split_ifs <;> exact ⟨_, _, rfl⟩

/-- The collision loop writes `y` and `vy` only. -/
theorem Player.foldl_collide_writes (ps : List Platform) (p : Player) :
    ∃ y vy, ps.foldl Player.collide p = { p with y := y, vy := vy } := by
  induction ps generalizing p with
  | nil => exact ⟨_, _, rfl⟩
  | cons pl ps ih =>
    obtain ⟨y, vy, h⟩ := p.collide_writes pl
    obtain ⟨y2, vy2, h2⟩ := ih (p.collide pl)
    refine ⟨y2, vy2, ?_⟩
    rw [List.foldl_cons, h2, h]

/-- Physics writes `x`, `y` and `vy` only. -/
theorem Player.applyPhysicsOn_writes (cv : Canvas) (ps : List Platform) (p : Player) :
    ∃ x y vy, p.applyPhysicsOn cv ps = { p with x := x, y := y, vy := vy } := by
  unfold Player.applyPhysicsOn
  dsimp only
  obtain ⟨y, vy, h⟩ := Player.foldl_collide_writes ps
    { p with vy := p.vy + GRAVITY_FORCE * (p.gravityDir : ℚ), x := p.x + p.vx,
             y := p.y + (p.vy + GRAVITY_FORCE * (p.gravityDir : ℚ)) }
  rw [h]
  dsimp only
  split_ifs <;> exact ⟨_, _, _, rfl⟩

/-- Physics writes `x`, `y` and `vy` only. -/
theorem Player.applyPhysics_writes (cv : Canvas) (p : Player) :
    ∃ x y vy, p.applyPhysics cv = { p with x := x, y := y, vy := vy } :=
  p.applyPhysicsOn_writes cv platforms

/-- Movement writes `vx` and `facing` only. -/
theorem Player.move_writes (keys : Keys) (p : Player) :
    ∃ vx fc, p.move keys = { p with vx := vx, facing := fc } := by
  unfold Player.move
  split_ifs <;> exact ⟨_, _, rfl⟩

/-- The jump writes `vy` only. -/
theorem Player.jump_writes (keys : Keys) (p : Player) :
    ∃ vy, p.jump keys = { p with vy := vy } := by
  unfold Player.jump
  dsimp only
  split_ifs <;> exact ⟨_, rfl⟩

/-- The gravity swap writes `gravityDir`, `swapTimer` and `vy` only. -/
theorem Player.swap_writes (keys : Keys) (p : Player) :
    ∃ gd st vy, p.swap keys = { p with gravityDir := gd, swapTimer := st, vy := vy } := by
  unfold Player.swap
  split_ifs <;> exact ⟨_, _, _, rfl⟩

/-- The attack stage writes the three attack fields only. -/
theorem Player.attack_writes (keys : Keys) (p : Player) :
    ∃ ia art act, p.attack keys
      = { p with isAttacking := ia, attackTimer := art, attackCooldownTimer := act } := by
  unfold Player.attack
  dsimp only
  split_ifs <;> exact ⟨_, _, _, rfl⟩

/-- The control processing leaves identity, position, size, lives, stun and
the control mapping alone. -/
theorem Player.controls_writes (keys : Keys) (p : Player) :
    ∃ vx vy gd st ia art act fc,
      p.controls keys = { p with vx := vx, vy := vy, gravityDir := gd, swapTimer := st,
                                 isAttacking := ia, attackTimer := art,
                                 attackCooldownTimer := act, facing := fc } := by
  unfold Player.controls
  obtain ⟨vx, fc, h1⟩ := p.move_writes keys
  obtain ⟨vy, h2⟩ := (p.move keys).jump_writes keys
  obtain ⟨gd, st, vy2, h3⟩ := ((p.move keys).jump keys).swap_writes keys
  obtain ⟨ia, art, act, h4⟩ := (((p.move keys).jump keys).swap keys).attack_writes keys
  rw [h4, h3, h2, h1]
  exact ⟨_, _, _, _, _, _, _, _, rfl⟩

/-- The respawn writes `vx`, `vy`, `gravityDir`, `stunned`, `x` and `y` only. -/
theorem Player.respawn_writes (p : Player) :
    ∃ x, p.respawn = { p with vx := 0, vy := 0, gravityDir := 1, stunned := 0,
                              x := x, y := 300 } := by
  unfold Player.respawn
  dsimp only
  split_ifs <;> exact ⟨_, rfl⟩

theorem Player.respawn_lives (p : Player) : p.respawn.lives = p.lives := by
  obtain ⟨x, h⟩ := p.respawn_writes
  rw [h]

theorem Player.cooldowns_stunned (p : Player) : p.cooldowns.stunned = p.stunned := by
  obtain ⟨a, b, h⟩ := p.cooldowns_writes
  rw [h]

theorem Player.cooldowns_lives (p : Player) : p.cooldowns.lives = p.lives := by
  obtain ⟨a, b, h⟩ := p.cooldowns_writes
  rw [h]

theorem Player.cooldowns_id (p : Player) : p.cooldowns.id = p.id := by
  obtain ⟨a, b, h⟩ := p.cooldowns_writes
  rw [h]

theorem Player.controls_lives (keys : Keys) (p : Player) :
    (p.controls keys).lives = p.lives := by
  obtain ⟨_, _, _, _, _, _, _, _, h⟩ := p.controls_writes keys
  rw [h]

theorem Player.controls_id (keys : Keys) (p : Player) :
    (p.controls keys).id = p.id := by
  obtain ⟨_, _, _, _, _, _, _, _, h⟩ := p.controls_writes keys
  rw [h]

theorem Player.applyPhysics_lives (cv : Canvas) (p : Player) :
    (p.applyPhysics cv).lives = p.lives := by
  obtain ⟨_, _, _, h⟩ := p.applyPhysics_writes cv
  rw [h]

theorem Player.applyPhysics_id (cv : Canvas) (p : Player) :
    (p.applyPhysics cv).id = p.id := by
  obtain ⟨_, _, _, h⟩ := p.applyPhysics_writes cv
  rw [h]

/-- The lives and the id before the spike check are those at frame start. -/
theorem Player.preSpikes_lives (keys : Keys) (cv : Canvas) (p : Player) :
    ((p.cooldowns.controls keys).applyPhysics cv).lives = p.lives := by
  rw [Player.applyPhysics_lives, Player.controls_lives, Player.cooldowns_lives]

theorem Player.preSpikes_id (keys : Keys) (cv : Canvas) (p : Player) :
    ((p.cooldowns.controls keys).applyPhysics cv).id = p.id := by
  rw [Player.applyPhysics_id, Player.controls_id, Player.cooldowns_id]

/-- A living, unstunned player runs the full frame: cooldowns, controls,
physics, then the spike check. -/
theorem Player.update_unstunned (keys : Keys) (cv : Canvas) (p : Player) (m : MatchState)
    (hl : 0 < p.lives) (hs : ¬ p.stunned > 0) :
    Player.update keys cv p m
      = ((p.cooldowns.controls keys).applyPhysics cv).checkSpikes cv m := by
  have hc := p.cooldowns_stunned
  unfold Player.update
  rw [if_neg (by omega)]
  dsimp only
  rw [hc, if_neg hs]

/-- A living, stunned player only counts down and integrates physics. -/
theorem Player.update_stunned (keys : Keys) (cv : Canvas) (p : Player) (m : MatchState)
    (hl : 0 < p.lives) (hs : p.stunned > 0) :
    Player.update keys cv p m
      = (({ p.cooldowns with stunned := p.cooldowns.stunned - 1 }).applyPhysics cv, m) := by
  have hc := p.cooldowns_stunned
  unfold Player.update
  rw [if_neg (by omega)]
  dsimp only
  rw [hc, if_pos hs]

/-- A player on its last life that touches the spikes is eliminated. -/
theorem Player.checkSpikes_last_life (cv : Canvas) (p : Player) (m : MatchState)
    (hl : p.lives = 1) (hs : p.inSpikes cv) :
    p.checkSpikes cv m
      = ({ p with lives := 0 }, endGame (if p.id = 1 then 2 else 1) (updateUI m)) := by
  unfold Player.checkSpikes Player.die
  rw [if_pos hs]
  simp [hl]

/-- The function `endGame` is not guarded. Every call, also on a match that is
already Over, leaves `gameOver` true (Over is never left), records its own
`winnerId` as the displayed winner and schedules one more reload timer. In a
tick of a running match in which both players, unstunned and on their last
life, end the frame inside a spike band, `endGame` runs twice: the match is
Over, two more timers are scheduled and the winner displayed is the one of the
second call, the opponent of `p2`. -/
theorem endGame_unguarded (w : Int) (keys : Keys) (cv : Canvas) (g : Game)
    (hrun : g.m.gameOver = false)
    (h1 : g.p1.lives = 1) (h2 : g.p2.lives = 1)
    (hs1 : ¬ g.p1.stunned > 0) (hs2 : ¬ g.p2.stunned > 0)
    (hd1 : ((g.p1.cooldowns.controls keys).applyPhysics cv).inSpikes cv)
    (hd2 : ((g.p2.cooldowns.controls keys).applyPhysics cv).inSpikes cv) :
    (∀ m : MatchState, (endGame w m).gameOver = true ∧
        (endGame w m).winnerMsg = some w ∧
        (endGame w m).reloadTimers = m.reloadTimers + 1) ∧
    (update keys cv g).m.gameOver = true ∧
    (update keys cv g).m.reloadTimers = g.m.reloadTimers + 2 ∧
    (update keys cv g).m.winnerMsg = some (if g.p2.id = 1 then 2 else 1) := by
  refine ⟨fun m => ⟨rfl, rfl, rfl⟩, ?_⟩
  have e1 := Player.update_unstunned keys cv g.p1 g.m (by omega) hs1
  rw [Player.checkSpikes_last_life cv _ g.m
    ((Player.preSpikes_lives keys cv g.p1).trans h1) hd1] at e1
  have e2 := fun m => Player.update_unstunned keys cv g.p2 m (by omega) hs2
  simp only [Player.checkSpikes_last_life cv _ _
    ((Player.preSpikes_lives keys cv g.p2).trans h2) hd2, Player.preSpikes_id] at e2
  simp only [update, hrun, e1, e2, endGame, updateUI]
  simp

/-- Instance of `endGame_unguarded`: the tick of `doubleKO` under no keys ends the
match twice. -/
theorem endGame_unguarded_doubleKO :
    (∀ m : MatchState, (endGame 2 m).gameOver = true ∧
        (endGame 2 m).winnerMsg = some 2 ∧
        (endGame 2 m).reloadTimers = m.reloadTimers + 1) ∧
    (update noKeys arena doubleKO).m.gameOver = true ∧
    (update noKeys arena doubleKO).m.reloadTimers = doubleKO.m.reloadTimers + 2 ∧
    (update noKeys arena doubleKO).m.winnerMsg = some (if doubleKO.p2.id = 1 then 2 else 1) :=
  endGame_unguarded 2 noKeys arena doubleKO (by decide!) (by decide!) (by decide!)
    (by decide!) (by decide!) (by decide!) (by decide!)

/-- C5: `die()` takes exactly one life and then does exactly one of two
things. If the new lives value is at most 0 it ends the match with the other
player as winner (2 for player 1, 1 for player 2) and does not respawn: only
`lives` changes in the player. Otherwise it respawns the player and does not
end the match: `gameOver`, the displayed winner and the timers are unchanged.
Scenario: an unstunned player with lives = 1 whose y after this frame's physics
is below 20 ends `Player.update` with lives = 0 and the match Over with the
opponent as winner. -/
theorem C5_die_exactly_one (keys : Keys) (cv : Canvas) (p : Player) (m : MatchState) :
    (p.die m).1.lives = p.lives - 1 ∧
    (p.lives - 1 ≤ 0 →
      p.die m = ({ p with lives := p.lives - 1 },
                 endGame (if p.id = 1 then 2 else 1) (updateUI m)) ∧
      (p.die m).2.gameOver = true ∧
      (p.id = 1 → (p.die m).2.winnerMsg = some 2) ∧
      (p.id = 2 → (p.die m).2.winnerMsg = some 1) ∧
      (p.die m).1.x = p.x ∧ (p.die m).1.y = p.y ∧ (p.die m).1.vx = p.vx ∧
      (p.die m).1.vy = p.vy ∧ (p.die m).1.gravityDir = p.gravityDir ∧
      (p.die m).1.stunned = p.stunned) ∧
    (0 < p.lives - 1 →
      p.die m = (({ p with lives := p.lives - 1 }).respawn, updateUI m) ∧
      (p.die m).2.gameOver = m.gameOver ∧
      (p.die m).2.winnerMsg = m.winnerMsg ∧
      (p.die m).2.reloadTimers = m.reloadTimers) ∧
    (p.lives = 1 → ¬ p.stunned > 0 →
      ((p.cooldowns.controls keys).applyPhysics cv).y < 20 →
      (Player.update keys cv p m).1.lives = 0 ∧
      (Player.update keys cv p m).2.gameOver = true ∧
      (Player.update keys cv p m).2.winnerMsg = some (if p.id = 1 then 2 else 1)) := by
  refine ⟨?_, ?_, ?_, ?_⟩
  · unfold Player.die
    dsimp only
    split_ifs <;> simp [Player.respawn_lives]
  · intro h
    have e : p.die m = ({ p with lives := p.lives - 1 },
        endGame (if p.id = 1 then 2 else 1) (updateUI m)) := by
      unfold Player.die
      dsimp only
      rw [if_pos h]
    rw [e]
    refine ⟨rfl, rfl, ?_, ?_, rfl, rfl, rfl, rfl, rfl, rfl⟩
    · intro h1
      simp [endGame, h1]
    · intro h2
      simp [endGame, h2]
  · intro h
    have e : p.die m = (({ p with lives := p.lives - 1 }).respawn, updateUI m) := by
      unfold Player.die
      dsimp only
      rw [if_neg (by omega)]
    rw [e]
    exact ⟨rfl, rfl, rfl, rfl⟩
  · intro h1 hs hy
    rw [Player.update_unstunned keys cv p m (by omega) hs,
      Player.checkSpikes_last_life cv _ m ((Player.preSpikes_lives keys cv p).trans h1)
        (Or.inl hy), Player.preSpikes_id]
    exact ⟨rfl, rfl, rfl⟩

/-- C5, instances: the last life of `lastLifeAttacker` (match end, winner 2),
a death of the fresh player 1 (respawn, match goes on) and the frame in which
`lastLifeAttacker` rises from y = 22 to y = 17.5. -/
theorem C5_die_exactly_one_witness :
    (lastLifeAttacker.die MatchState.init).2.gameOver = true ∧
    (lastLifeAttacker.die MatchState.init).2.winnerMsg = some 2 ∧
    (p1.die MatchState.init).2.gameOver = false ∧
    (Player.update noKeys arena lastLifeAttacker MatchState.init).1.lives = 0 ∧
    (Player.update noKeys arena lastLifeAttacker MatchState.init).2.gameOver = true ∧
    (Player.update noKeys arena lastLifeAttacker MatchState.init).2.winnerMsg = some 2 :=
  ⟨((C5_die_exactly_one noKeys arena lastLifeAttacker MatchState.init).2.1
      (by decide!)).2.1,
   ((C5_die_exactly_one noKeys arena lastLifeAttacker MatchState.init).2.1
      (by decide!)).2.2.1 (by decide!),
   ((C5_die_exactly_one noKeys arena p1 MatchState.init).2.2.1 (by decide!)).2.1,
   (C5_die_exactly_one noKeys arena lastLifeAttacker MatchState.init).2.2.2
      (by decide!) (by decide!) (by decide!)⟩

/-- C6: `Player.update` is a no-op on an eliminated player: with lives <= 0 it
returns the player (every field) and the match state unchanged, whatever the
keys. -/
theorem C6_update_eliminated_noop (keys : Keys) (cv : Canvas) (p : Player)
    (m : MatchState) (h : p.lives ≤ 0) :
    Player.update keys cv p m = (p, m) := by
  unfold Player.update
  rw [if_pos h]

/-- C6, instance: the eliminated player 1 with every key held. -/
theorem C6_update_eliminated_noop_witness :
    Player.update (fun _ => true) arena { p1 with lives := 0 } MatchState.init
      = ({ p1 with lives := 0 }, MatchState.init) :=
  C6_update_eliminated_noop (fun _ => true) arena { p1 with lives := 0 }
    MatchState.init (by decide!)

/-- C9: knockback is deterministic. When the attacker is attacking with
attackTimer > 0, the defender is not stunned and the defender box overlaps the
hitbox (40 wide, from x + w when facing = 1, from x - 40 when facing = -1,
vertical span y .. y + 10 of the attacker), `checkCombat` sets the defender to
stunned = 20, vx = facing * KNOCKBACK (10 or -10), vy = -5 * its own
gravityDir, whatever the gravityDir of the attacker, and changes nothing else
in either player. -/
theorem C9_knockback_deterministic (a d : Player)
    (hatk : a.isAttacking = true) (ht : a.attackTimer > 0) (hst : d.stunned = 0)
    (hx : (a.facing = 1 ∧ a.x + a.w < d.x + d.w ∧ a.x + a.w + 40 > d.x) ∨
          (a.facing = -1 ∧ a.x - 40 < d.x + d.w ∧ a.x - 40 + 40 > d.x))
    (hy : a.y < d.y + d.h ∧ a.y + 10 > d.y) :
    checkCombat a d
      = (a, { d with stunned := 20, vx := (a.facing : ℚ) * KNOCKBACK,
                     vy := -5 * (d.gravityDir : ℚ) }) ∧
    ((checkCombat a d).2.vx = 10 ∨ (checkCombat a d).2.vx = -10) ∧
    (∀ gd : Int, (checkCombat { a with gravityDir := gd } d).2 = (checkCombat a d).2) := by
  have key : ∀ gd : Int, checkCombat { a with gravityDir := gd } d
      = ({ a with gravityDir := gd },
         { d with stunned := 20, vx := (a.facing : ℚ) * KNOCKBACK,
                  vy := -5 * (d.gravityDir : ℚ) }) := by
    intro gd
    unfold checkCombat
    dsimp only
    rw [if_pos ⟨hatk, ht, hst⟩]
    rcases hx with ⟨hf, h1, h2⟩ | ⟨hf, h1, h2⟩
    · rw [if_pos hf, if_pos ⟨h1, h2, hy.1, hy.2⟩]
    · rw [if_neg (show ¬ a.facing = 1 by omega), if_pos ⟨h1, h2, hy.1, hy.2⟩]
  have e := key a.gravityDir
  refine ⟨e, ?_, ?_⟩
  · rw [e]
    rcases hx with ⟨hf, -, -⟩ | ⟨hf, -, -⟩
    · left; simp [hf, KNOCKBACK]
    · right; simp [hf, KNOCKBACK]
  · intro gd
    rw [key gd, e]

/-- C9, instance: `lastLifeAttacker` (facing right at x = 100) hits the player
`{ neighbour with y := 22 }` standing at x = 140. -/
theorem C9_knockback_deterministic_witness :
    checkCombat lastLifeAttacker { neighbour with y := 22 }
      = (lastLifeAttacker,
         { neighbour with y := 22, stunned := 20, vx := 10, vy := -5 }) :=
  ((C9_knockback_deterministic lastLifeAttacker { neighbour with y := 22 }
      (by decide!) (by decide!) (by decide!) (by decide!) (by decide!)).1).trans
    (by decide!)

/-- C10: a stunned defender is not stunned again. When the defender has
stunned > 0, `checkCombat` leaves both players unchanged, whatever the overlap
and the attack state of the attacker. -/
theorem C10_no_restun (a d : Player) (h : d.stunned > 0) :
    checkCombat a d = (a, d) := by
  unfold checkCombat
  rw [if_neg (by intro hc; omega)]

/-- C10, instance: the attack of `lastLifeAttacker` on an overlapping defender
that still has 7 stun frames. -/
theorem C10_no_restun_witness :
    checkCombat lastLifeAttacker { neighbour with y := 22, stunned := 7 }
      = (lastLifeAttacker, { neighbour with y := 22, stunned := 7 }) :=
  C10_no_restun lastLifeAttacker { neighbour with y := 22, stunned := 7 } (by decide!)

/-- Movement reads the left and right controls only. -/
theorem Player.move_congr (k1 k2 : Keys) (p : Player)
    (hl : k1 p.ctrl.left = k2 p.ctrl.left) (hr : k1 p.ctrl.right = k2 p.ctrl.right) :
    p.move k1 = p.move k2 := by
  unfold Player.move
  rw [hl, hr]

/-- The jump reads the jump control only. -/
theorem Player.jump_congr (k1 k2 : Keys) (p : Player)
    (hj : k1 p.ctrl.jump = k2 p.ctrl.jump) : p.jump k1 = p.jump k2 := by
  unfold Player.jump
  rw [hj]

/-- The attack stage reads the attack control only. -/
theorem Player.attack_congr (k1 k2 : Keys) (p : Player)
    (ha : k1 p.ctrl.atk = k2 p.ctrl.atk) : p.attack k1 = p.attack k2 := by
  unfold Player.attack
  rw [ha]

/-- While the swap timer is not 0 the swap stage does nothing. -/
theorem Player.swap_cooling (keys : Keys) (p : Player) (h : p.swapTimer ≠ 0) :
    p.swap keys = p := by
  unfold Player.swap
  rw [if_neg (fun hc => h hc.2)]

/-- The swap stage does nothing while the swap control is not held. -/
theorem Player.swap_released (keys : Keys) (p : Player) (h : keys p.ctrl.swap = false) :
    p.swap keys = p := by
  unfold Player.swap
  rw [if_neg (fun hc => by simp [h] at hc)]

/-- Within the cooldown the control processing does not read the swap control
and keeps `gravityDir` and `swapTimer`. -/
theorem Player.controls_cooling (k1 k2 : Keys) (p : Player) (hs : p.swapTimer ≠ 0)
    (hl : k1 p.ctrl.left = k2 p.ctrl.left) (hr : k1 p.ctrl.right = k2 p.ctrl.right)
    (hj : k1 p.ctrl.jump = k2 p.ctrl.jump) (ha : k1 p.ctrl.atk = k2 p.ctrl.atk) :
    p.controls k1 = p.controls k2 ∧ (p.controls k1).swapTimer = p.swapTimer ∧
    (p.controls k1).gravityDir = p.gravityDir := by
  unfold Player.controls
  obtain ⟨vx, fc, h1⟩ := p.move_writes k1
  obtain ⟨vy, h2⟩ := (p.move k1).jump_writes k1
  have e1 : ((p.move k1).jump k1).swapTimer = p.swapTimer := by rw [h2, h1]
  have e2 : ((p.move k1).jump k1).ctrl = p.ctrl := by rw [h2, h1]
  have e3 : (p.move k1).ctrl = p.ctrl := by rw [h1]
  have e4 : ((p.move k1).jump k1).gravityDir = p.gravityDir := by rw [h2, h1]
  have s1 := ((p.move k1).jump k1).swap_cooling k1 (by rw [e1]; exact hs)
  have m12 := p.move_congr k1 k2 hl hr
  have j12 := (p.move k1).jump_congr k1 k2 (by rw [e3]; exact hj)
  have s2 := ((p.move k2).jump k2).swap_cooling k2 (by rw [← m12, ← j12, e1]; exact hs)
  obtain ⟨ia, art, act, h4⟩ := ((p.move k1).jump k1).attack_writes k1
  rw [s1, s2, ← m12, ← j12]
  refine ⟨Player.attack_congr k1 k2 _ (by rw [e2]; exact ha), ?_, ?_⟩
  · rw [h4]; exact e1
  · rw [h4]; exact e4

/-- The spike check never writes `swapTimer`; it keeps `gravityDir` unless a
life is lost. -/
theorem Player.checkSpikes_swap (cv : Canvas) (p : Player) (m : MatchState) :
    (p.checkSpikes cv m).1.swapTimer = p.swapTimer ∧
    ((p.checkSpikes cv m).1.lives = p.lives →
      (p.checkSpikes cv m).1.gravityDir = p.gravityDir) := by
  obtain ⟨x, hr⟩ := Player.respawn_writes { p with lives := p.lives - 1 }
  unfold Player.checkSpikes
  by_cases hsp : p.inSpikes cv
  · rw [if_pos hsp]
    unfold Player.die
    dsimp only
    by_cases hl : p.lives - 1 ≤ 0
    · rw [if_pos hl]
      exact ⟨rfl, fun _ => rfl⟩
    · rw [if_neg hl, hr]
      exact ⟨rfl, fun h => absurd h (by show ¬ (p.lives - 1 = p.lives); omega)⟩
  · rw [if_neg hsp]
    exact ⟨rfl, fun _ => rfl⟩

/-- C7: the gravity swap is rate-limited. For a living player whose swapTimer
is still > 0 after this frame's countdown, `Player.update` does not read the
swap control: two key states that agree on the other four controls of the
player (so also: swap held, and the same keys with swap released) give the same
player and match state. swapTimer only counts down by 1 and gravityDir is kept
(it changes only if the player loses a life in this frame and respawns).
Scenario: player 1 as created, on a 1100 x 600 canvas, with its swap key held on
every frame, has gravityDir = -1 and swapTimer = 90 - k after frame k for
k = 0..10: only the swap of frame 0 takes effect. -/
theorem C7_swap_rate_limited (k1 k2 : Keys) (cv : Canvas) (p : Player) (m : MatchState)
    (hlive : 0 < p.lives) (hs : p.cooldowns.swapTimer > 0)
    (hl : k1 p.ctrl.left = k2 p.ctrl.left) (hr : k1 p.ctrl.right = k2 p.ctrl.right)
    (hj : k1 p.ctrl.jump = k2 p.ctrl.jump) (ha : k1 p.ctrl.atk = k2 p.ctrl.atk) :
    Player.update k1 cv p m = Player.update k2 cv p m ∧
    (Player.update k1 cv p m).1.swapTimer = p.swapTimer - 1 ∧
    ((Player.update k1 cv p m).1.lives = p.lives →
      (Player.update k1 cv p m).1.gravityDir = p.gravityDir) ∧
    (∀ k : Fin 11,
      (Player.frames (keydown noKeys "s") arena (k.val + 1) (p1, MatchState.init)).1.gravityDir
        = -1 ∧
      (Player.frames (keydown noKeys "s") arena (k.val + 1) (p1, MatchState.init)).1.swapTimer
        = SWAP_COOLDOWN - k.val) := by
  obtain ⟨a, b, hc⟩ := p.cooldowns_writes
  have hctrl : p.cooldowns.ctrl = p.ctrl := by rw [hc]
  have hgd : p.cooldowns.gravityDir = p.gravityDir := by rw [hc]
  have hst : p.cooldowns.swapTimer = p.swapTimer - 1 := by
    have : p.cooldowns.swapTimer
        = if p.swapTimer > 0 then p.swapTimer - 1 else p.swapTimer := by
      unfold Player.cooldowns
      dsimp only
      split_ifs <;> rfl
    rw [this] at hs ⊢
    split_ifs at hs ⊢ with h0
    · rfl
    · omega
  refine ⟨?_, ?_, ?_, by decide!⟩
  · by_cases hstun : p.stunned > 0
    · rw [Player.update_stunned k1 cv p m hlive hstun,
        Player.update_stunned k2 cv p m hlive hstun]
    · obtain ⟨e, -, -⟩ := Player.controls_cooling k1 k2 p.cooldowns (by omega)
        (by rw [hctrl]; exact hl) (by rw [hctrl]; exact hr) (by rw [hctrl]; exact hj)
        (by rw [hctrl]; exact ha)
      rw [Player.update_unstunned k1 cv p m hlive hstun,
        Player.update_unstunned k2 cv p m hlive hstun, e]
  · by_cases hstun : p.stunned > 0
    · rw [Player.update_stunned k1 cv p m hlive hstun]
      obtain ⟨x, y, vy, hp⟩ := Player.applyPhysics_writes cv
        { p.cooldowns with stunned := p.cooldowns.stunned - 1 }
      rw [hp]
      exact hst
    · obtain ⟨-, e, -⟩ := Player.controls_cooling k1 k2 p.cooldowns (by omega)
        (by rw [hctrl]; exact hl) (by rw [hctrl]; exact hr) (by rw [hctrl]; exact hj)
        (by rw [hctrl]; exact ha)
      obtain ⟨x, y, vy, hp⟩ := Player.applyPhysics_writes cv (p.cooldowns.controls k1)
      rw [Player.update_unstunned k1 cv p m hlive hstun,
        (Player.checkSpikes_swap cv _ m).1, hp]
      exact e.trans hst
  · by_cases hstun : p.stunned > 0
    · intro _
      rw [Player.update_stunned k1 cv p m hlive hstun]
      obtain ⟨x, y, vy, hp⟩ := Player.applyPhysics_writes cv
        { p.cooldowns with stunned := p.cooldowns.stunned - 1 }
      rw [hp]
      exact hgd
    · obtain ⟨-, -, e⟩ := Player.controls_cooling k1 k2 p.cooldowns (by omega)
        (by rw [hctrl]; exact hl) (by rw [hctrl]; exact hr) (by rw [hctrl]; exact hj)
        (by rw [hctrl]; exact ha)
      obtain ⟨x, y, vy, hp⟩ := Player.applyPhysics_writes cv (p.cooldowns.controls k1)
      rw [Player.update_unstunned k1 cv p m hlive hstun]
      intro hlv
      have hpl : ((p.cooldowns.controls k1).applyPhysics cv).lives = p.lives :=
        Player.preSpikes_lives k1 cv p
      rw [(Player.checkSpikes_swap cv _ m).2 (hlv.trans hpl.symm), hp]
      exact e.trans hgd

/-- C7, instance: one frame after its gravity swap player 1 holds the swap key
again; the frame is the one with the key released and swapTimer goes to 89. -/
theorem C7_swap_rate_limited_witness :
    Player.update (keydown noKeys "s") arena afterSwap MatchState.init
      = Player.update (keyup (keydown noKeys "s") "s") arena afterSwap MatchState.init ∧
    (Player.update (keydown noKeys "s") arena afterSwap MatchState.init).1.swapTimer
      = afterSwap.swapTimer - 1 :=
  ⟨(C7_swap_rate_limited (keydown noKeys "s") (keyup (keydown noKeys "s") "s") arena
      afterSwap MatchState.init (by decide!) (by decide!) (by decide!) (by decide!)
      (by decide!) (by decide!)).1,
   (C7_swap_rate_limited (keydown noKeys "s") (keyup (keydown noKeys "s") "s") arena
      afterSwap MatchState.init (by decide!) (by decide!) (by decide!) (by decide!)
      (by decide!) (by decide!)).2.1⟩

/-- A platform the player does not overlap vertically does not move it. -/
theorem Player.collide_miss (p : Player) (pl : Platform)
    (h : ¬ (p.y < pl.y + pl.h ∧ p.y + p.h > pl.y)) : p.collide pl = p := by
  unfold Player.collide
  rw [if_neg (fun hc => h ⟨hc.2.2.1, hc.2.2.2⟩)]

/-- Platforms the player does not overlap vertically do not move it. -/
theorem Player.foldl_collide_miss (ps : List Platform) (p : Player)
    (h : ∀ pl ∈ ps, ¬ (p.y < pl.y + pl.h ∧ p.y + p.h > pl.y)) :
    ps.foldl Player.collide p = p := by
  induction ps with
  | nil => rfl
  | cons pl ps ih =>
    rw [List.foldl_cons, p.collide_miss pl (h pl (List.mem_cons_self _ _))]
    exact ih (fun q hq => h q (List.mem_cons_of_mem _ hq))

/-- Free flight: when the moved player overlaps no platform vertically, physics
adds gravity to `vy` and advances `y` by the new `vy`. -/
theorem Player.applyPhysics_free (cv : Canvas) (p : Player)
    (h : ∀ pl ∈ platforms,
      ¬ (p.y + (p.vy + GRAVITY_FORCE * (p.gravityDir : ℚ)) < pl.y + pl.h ∧
         p.y + (p.vy + GRAVITY_FORCE * (p.gravityDir : ℚ)) + p.h > pl.y)) :
    (p.applyPhysics cv).vy = p.vy + GRAVITY_FORCE * (p.gravityDir : ℚ) ∧
    (p.applyPhysics cv).y = p.y + (p.vy + GRAVITY_FORCE * (p.gravityDir : ℚ)) := by
  unfold Player.applyPhysics Player.applyPhysicsOn
  dsimp only
  rw [Player.foldl_collide_miss platforms _ h]
  dsimp only
  split_ifs <;> exact ⟨rfl, rfl⟩

/-- Once on ground, the loop over the small platforms keeps `onGround`. -/
theorem Player.foldl_onSmall_true (p : Player) (ps : List Platform) :
    ps.foldl p.onSmall true = true := by
  induction ps with
  | nil => rfl
  | cons pl ps ih =>
    have : p.onSmall true pl = true := by
      unfold Player.onSmall
      dsimp only
      split_ifs <;> rfl
    rw [List.foldl_cons, this, ih]

/-- Under normal gravity a player whose box meets the box of the central
platform (closed vertically) is on ground. -/
theorem Player.onGround_central_down (p : Player) (hgd : p.gravityDir = 1)
    (h1 : p.y + p.h ≥ 280) (h2 : p.y ≤ 320) (h3 : p.x + p.w > 250) (h4 : p.x < 850) :
    p.onGround = true := by
  have hc : p.onCentral = true := by
    unfold Player.onCentral
    simp only [platforms, List.get]
    rw [if_pos ⟨hgd, h1, by norm_num; exact h2, h3, by norm_num; exact h4⟩]
  unfold Player.onGround
  rw [hc]
  exact p.foldl_onSmall_true _

/-- C8 (counterexample): player 1 at rest on top of the central platform
(x = 300, y = 250, gravityDir = 1, alive, unstunned) with only its jump key
held ends the frame with vy = -11.5, not -12; gravityDir stays 1. -/
theorem C8_jump_frame_not_minus_12 :
    onCentralTop.lives = 3 ∧ onCentralTop.stunned = 0 ∧ onCentralTop.y = 250 ∧
    onCentralTop.vx = 0 ∧ onCentralTop.vy = 0 ∧ onCentralTop.gravityDir = 1 ∧
    (Player.update (keydown noKeys "w") arena onCentralTop MatchState.init).1.vy = -23 / 2 ∧
    (Player.update (keydown noKeys "w") arena onCentralTop MatchState.init).1.vy
      ≠ -JUMP_FORCE ∧
    (Player.update (keydown noKeys "w") arena onCentralTop MatchState.init).1.gravityDir
      = 1 := by
  decide!

/-- C8 (amended): for a living, unstunned player of height 30 standing on top of
the central platform (y = 250, box overlapping x in 250..850, gravityDir = 1)
with the jump control held and the left, right and swap controls released, on a
canvas at least 288.5 high: the control processing sets vy = -JUMP_FORCE = -12,
and the physics of the same frame adds gravity, so that one frame of
`Player.update` yields vy = -JUMP_FORCE + GRAVITY_FORCE = -11.5 and y = 238.5;
gravityDir stays 1 and no life is lost. This holds in particular at rest
(vx = vy = 0) with only the jump control held. -/
theorem C8_jump_frame (keys : Keys) (cv : Canvas) (p : Player) (m : MatchState)
    (hlive : 0 < p.lives) (hstun : p.stunned = 0) (hh : p.h = 30) (hy : p.y = 250)
    (hx1 : p.x + p.w > 250) (hx2 : p.x < 850) (hgd : p.gravityDir = 1)
    (kj : keys p.ctrl.jump = true) (kl : keys p.ctrl.left = false)
    (kr : keys p.ctrl.right = false) (ks : keys p.ctrl.swap = false)
    (hcv : 577 / 2 ≤ cv.height) :
    (p.cooldowns.controls keys).vy = -JUMP_FORCE ∧
    (Player.update keys cv p m).1.vy = -JUMP_FORCE + GRAVITY_FORCE ∧
    (Player.update keys cv p m).1.vy = -23 / 2 ∧
    (Player.update keys cv p m).1.y = 477 / 2 ∧
    (Player.update keys cv p m).1.gravityDir = 1 ∧
    (Player.update keys cv p m).1.lives = p.lives ∧
    (Player.update keys cv p m).2 = m := by
  obtain ⟨a, b, hc⟩ := p.cooldowns_writes
  -- movement: no direction held
  have hm : p.cooldowns.move keys = { p.cooldowns with vx := 0 } := by
    unfold Player.move
    rw [hc]
    dsimp only
    rw [if_neg (by simp [kl]), if_neg (by simp [kr])]
  -- jump: on the central platform
  have hgr : (p.cooldowns.move keys).onGround = true := by
    rw [hm, hc]
    apply Player.onGround_central_down
    · exact hgd
    · show p.y + p.h ≥ 280
      rw [hy, hh]; norm_num
    · show p.y ≤ 320
      rw [hy]; norm_num
    · exact hx1
    · exact hx2
  have hj : (p.cooldowns.move keys).jump keys
      = { p.cooldowns.move keys with vy := -JUMP_FORCE * ((p.cooldowns.move keys).gravityDir : ℚ) } := by
    unfold Player.jump
    dsimp only
    rw [if_pos ⟨by rw [hm, hc]; exact kj, hgr⟩]
  have hsw := ((p.cooldowns.move keys).jump keys).swap_released keys
    (by rw [hj, hm, hc]; exact ks)
  obtain ⟨ia, art, act, hat⟩ := ((p.cooldowns.move keys).jump keys).attack_writes keys
  have hctl : p.cooldowns.controls keys
      = { p with swapTimer := a, vx := 0, vy := -JUMP_FORCE * ((1 : Int) : ℚ),
                 isAttacking := ia, attackTimer := art, attackCooldownTimer := act } := by
    unfold Player.controls
    rw [hsw, hat, hj, hm, hc]
    dsimp only
    rw [hgd]
  have hfree := Player.applyPhysics_free cv (p.cooldowns.controls keys) (by
    rw [hctl]
    dsimp only
    rw [hy, hh, hgd]
    intro pl hpl
    simp only [platforms, List.mem_cons, List.mem_singleton, List.not_mem_nil, or_false] at hpl
    rcases hpl with rfl | rfl | rfl | rfl | rfl <;>
      norm_num [JUMP_FORCE, GRAVITY_FORCE])
  obtain ⟨x, y, vy, hp⟩ := Player.applyPhysics_writes cv (p.cooldowns.controls keys)
  have hvy2 : ((p.cooldowns.controls keys).applyPhysics cv).vy = -23 / 2 := by
    rw [hfree.1, hctl]
    dsimp only
    rw [hgd]
    norm_num [JUMP_FORCE, GRAVITY_FORCE]
  have hy2 : ((p.cooldowns.controls keys).applyPhysics cv).y = 477 / 2 := by
    rw [hfree.2, hctl]
    dsimp only
    rw [hgd, hy]
    norm_num [JUMP_FORCE, GRAVITY_FORCE]
  have hh2 : ((p.cooldowns.controls keys).applyPhysics cv).h = 30 := by
    rw [hp, hctl]; exact hh
  have hgd2 : ((p.cooldowns.controls keys).applyPhysics cv).gravityDir = 1 := by
    rw [hp, hctl]; exact hgd
  have hsafe : ¬ ((p.cooldowns.controls keys).applyPhysics cv).inSpikes cv := by
    unfold Player.inSpikes
    rw [hy2, hh2]
    intro hcon
    rcases hcon with hcon | hcon
    · norm_num at hcon
    · linarith
  have hu : Player.update keys cv p m = ((p.cooldowns.controls keys).applyPhysics cv, m) := by
    rw [Player.update_unstunned keys cv p m hlive (by omega)]
    unfold Player.checkSpikes
    rw [if_neg hsafe]
  rw [hu]
  refine ⟨?_, ?_, hvy2, hy2, hgd2, Player.preSpikes_lives keys cv p, rfl⟩
  · rw [hctl]
    simp
  · show ((p.cooldowns.controls keys).applyPhysics cv).vy = -JUMP_FORCE + GRAVITY_FORCE
    rw [hvy2]
    norm_num [JUMP_FORCE, GRAVITY_FORCE]

/-- C8 (amended), instance: player 1 at x = 300 on top of the central platform,
jump key "w" held. -/
theorem C8_jump_frame_witness :
    (onCentralTop.cooldowns.controls (keydown noKeys "w")).vy = -JUMP_FORCE ∧
    (Player.update (keydown noKeys "w") arena onCentralTop MatchState.init).1.vy
      = -JUMP_FORCE + GRAVITY_FORCE ∧
    (Player.update (keydown noKeys "w") arena onCentralTop MatchState.init).1.vy = -23 / 2 ∧
    (Player.update (keydown noKeys "w") arena onCentralTop MatchState.init).1.y = 477 / 2 ∧
    (Player.update (keydown noKeys "w") arena onCentralTop MatchState.init).1.gravityDir = 1 ∧
    (Player.update (keydown noKeys "w") arena onCentralTop MatchState.init).1.lives
      = onCentralTop.lives ∧
    (Player.update (keydown noKeys "w") arena onCentralTop MatchState.init).2
      = MatchState.init :=
  C8_jump_frame (keydown noKeys "w") arena onCentralTop MatchState.init
    (by decide!) (by decide!) (by decide!) (by decide!) (by decide!) (by decide!)
    (by decide!) (by decide!) (by decide!) (by decide!) (by decide!) (by decide!)

/-- C11: stun strictly overrides input. For a living player with stunned > 0,
`Player.update` gives the same player and match state under any two key
states. In that frame vx, facing, gravityDir, isAttacking, attackTimer and
lives are unchanged, the match state is unchanged, stunned decreases by exactly
1, and physics still integrates: y and vy are those of the platform resolution
run on the player moved with vy + GRAVITY_FORCE * gravityDir, x + vx and
y + the new vy; when the moved player overlaps no platform vertically, vy
gains GRAVITY_FORCE * gravityDir and y advances by the new vy. -/
theorem C11_stun_overrides_input (k1 k2 : Keys) (cv : Canvas) (p : Player)
    (m : MatchState) (hl : 0 < p.lives) (hs : p.stunned > 0) :
    Player.update k1 cv p m = Player.update k2 cv p m ∧
    (Player.update k1 cv p m).2 = m ∧
    (Player.update k1 cv p m).1.vx = p.vx ∧
    (Player.update k1 cv p m).1.facing = p.facing ∧
    (Player.update k1 cv p m).1.gravityDir = p.gravityDir ∧
    (Player.update k1 cv p m).1.isAttacking = p.isAttacking ∧
    (Player.update k1 cv p m).1.attackTimer = p.attackTimer ∧
    (Player.update k1 cv p m).1.lives = p.lives ∧
    (Player.update k1 cv p m).1.stunned = p.stunned - 1 ∧
    (Player.update k1 cv p m).1.vy
      = (platforms.foldl Player.collide
          { p.cooldowns with stunned := p.stunned - 1,
                             vy := p.vy + GRAVITY_FORCE * (p.gravityDir : ℚ),
                             x := p.x + p.vx,
                             y := p.y + (p.vy + GRAVITY_FORCE * (p.gravityDir : ℚ)) }).vy ∧
    (Player.update k1 cv p m).1.y
      = (platforms.foldl Player.collide
          { p.cooldowns with stunned := p.stunned - 1,
                             vy := p.vy + GRAVITY_FORCE * (p.gravityDir : ℚ),
                             x := p.x + p.vx,
                             y := p.y + (p.vy + GRAVITY_FORCE * (p.gravityDir : ℚ)) }).y ∧
    ((∀ pl ∈ platforms,
        ¬ (p.y + (p.vy + GRAVITY_FORCE * (p.gravityDir : ℚ)) < pl.y + pl.h ∧
           p.y + (p.vy + GRAVITY_FORCE * (p.gravityDir : ℚ)) + p.h > pl.y)) →
      (Player.update k1 cv p m).1.vy = p.vy + GRAVITY_FORCE * (p.gravityDir : ℚ) ∧
      (Player.update k1 cv p m).1.y = p.y + (Player.update k1 cv p m).1.vy) := by
  obtain ⟨a, b, hc⟩ := p.cooldowns_writes
  have e1 := Player.update_stunned k1 cv p m hl hs
  have e2 := Player.update_stunned k2 cv p m hl hs
  have hst : p.cooldowns.stunned = p.stunned := p.cooldowns_stunned
  obtain ⟨x, y, vy, hp⟩ := Player.applyPhysics_writes cv
    { p.cooldowns with stunned := p.cooldowns.stunned - 1 }
  have hphys : ∀ q : Player,
      (q.applyPhysics cv).vy
        = (platforms.foldl Player.collide
            { q with vy := q.vy + GRAVITY_FORCE * (q.gravityDir : ℚ), x := q.x + q.vx,
                     y := q.y + (q.vy + GRAVITY_FORCE * (q.gravityDir : ℚ)) }).vy ∧
      (q.applyPhysics cv).y
        = (platforms.foldl Player.collide
            { q with vy := q.vy + GRAVITY_FORCE * (q.gravityDir : ℚ), x := q.x + q.vx,
                     y := q.y + (q.vy + GRAVITY_FORCE * (q.gravityDir : ℚ)) }).y := by
    intro q
    unfold Player.applyPhysics Player.applyPhysicsOn
    dsimp only
    split_ifs <;> exact ⟨rfl, rfl⟩
  have hq := hphys { p.cooldowns with stunned := p.cooldowns.stunned - 1 }
  rw [e1]
  refine ⟨e2.symm, rfl, ?_, ?_, ?_, ?_, ?_, ?_, ?_, ?_, ?_, ?_⟩
  · rw [hp, hc]
  · rw [hp, hc]
  · rw [hp, hc]
  · rw [hp, hc]
  · rw [hp, hc]
  · rw [hp, hc]
  · rw [hp]; exact congrArg (fun t => t - 1) hst
  · rw [hq.1, hst, hc]
  · rw [hq.2, hst, hc]
  · intro hfree
    have hf := Player.applyPhysics_free cv
      { p.cooldowns with stunned := p.cooldowns.stunned - 1 } (by rw [hc]; exact hfree)
    constructor
    · rw [hf.1, hc]
    · show (Player.applyPhysics cv _).y = p.y + (Player.applyPhysics cv _).vy
      rw [hf.1, hf.2, hc]

/-- C11, instance: `knockedUp` with every key held and with no key held. -/
theorem C11_stun_overrides_input_witness :
    Player.update allKeys arena knockedUp MatchState.init
      = Player.update noKeys arena knockedUp MatchState.init ∧
    (Player.update allKeys arena knockedUp MatchState.init).1.vx = knockedUp.vx ∧
    (Player.update allKeys arena knockedUp MatchState.init).1.stunned
      = knockedUp.stunned - 1 :=
  ⟨(C11_stun_overrides_input allKeys noKeys arena knockedUp MatchState.init
      (by decide!) (by decide!)).1,
   (C11_stun_overrides_input allKeys noKeys arena knockedUp MatchState.init
      (by decide!) (by decide!)).2.2.1,
   (C11_stun_overrides_input allKeys noKeys arena knockedUp MatchState.init
      (by decide!) (by decide!)).2.2.2.2.2.2.2.2.1⟩

/-- C15: `respawn()` sets vx = vy = 0, gravityDir = 1, stunned = 0 and moves
the player (y = 300); lives, swapTimer, attackCooldownTimer, isAttacking,
attackTimer and facing (and id, w, h, color, ctrl) are the same before and
after. -/
theorem C15_respawn_frame (p : Player) :
    p.respawn.vx = 0 ∧ p.respawn.vy = 0 ∧ p.respawn.gravityDir = 1 ∧
    p.respawn.stunned = 0 ∧ p.respawn.y = 300 ∧
    p.respawn.lives = p.lives ∧ p.respawn.swapTimer = p.swapTimer ∧
    p.respawn.attackCooldownTimer = p.attackCooldownTimer ∧
    p.respawn.isAttacking = p.isAttacking ∧ p.respawn.attackTimer = p.attackTimer ∧
    p.respawn.facing = p.facing ∧ p.respawn.id = p.id ∧ p.respawn.w = p.w ∧
    p.respawn.h = p.h ∧ p.respawn.color = p.color ∧ p.respawn.ctrl = p.ctrl := by
  obtain ⟨x, h⟩ := p.respawn_writes
  rw [h]
  exact ⟨rfl, rfl, rfl, rfl, rfl, rfl, rfl, rfl, rfl, rfl, rfl, rfl, rfl, rfl, rfl, rfl⟩

/-- After `die()` a match that was Over is still Over. -/
theorem Player.die_gameOver (p : Player) (m : MatchState) (h : m.gameOver = true) :
    (p.die m).2.gameOver = true := by
  unfold Player.die
  dsimp only
  by_cases hl : p.lives - 1 ≤ 0
  · rw [if_pos hl]
    rfl
  · rw [if_neg hl]
    exact h

/-- The spike check keeps a match Over. -/
theorem Player.checkSpikes_gameOver (cv : Canvas) (p : Player) (m : MatchState)
    (h : m.gameOver = true) : (p.checkSpikes cv m).2.gameOver = true := by
  unfold Player.checkSpikes
  by_cases hs : p.inSpikes cv
  · rw [if_pos hs]
    exact p.die_gameOver m h
  · rw [if_neg hs]
    exact h

/-- A frame of a player keeps a match Over. -/
theorem Player.update_gameOver (keys : Keys) (cv : Canvas) (p : Player) (m : MatchState)
    (h : m.gameOver = true) : (Player.update keys cv p m).2.gameOver = true := by
  by_cases hl : p.lives ≤ 0
  · unfold Player.update
    rw [if_pos hl]
    exact h
  · by_cases hs : p.stunned > 0
    · rw [Player.update_stunned keys cv p m (by omega) hs]
      exact h
    · rw [Player.update_unstunned keys cv p m (by omega) hs]
      exact Player.checkSpikes_gameOver cv _ m h

/-- C13: once the match is Over a tick does nothing: with gameOver = true the
game-loop `update` returns the state unchanged (both players, the match state,
no further frame requested), and so does any number of ticks. No operation
sets gameOver back to false: `endGame` sets it to true, `updateUI` keeps it,
and `die`, `checkSpikes`, `Player.update` and the tick keep it true. -/
theorem C13_over_is_terminal (keys : Keys) (cv : Canvas) (g : Game)
    (h : g.m.gameOver = true) :
    update keys cv g = g ∧
    (update keys cv g).m.frameRequests = g.m.frameRequests ∧
    (∀ ks : List Keys, runKeys cv ks g = g) ∧
    (∀ (w : Int) (m : MatchState), (endGame w m).gameOver = true) ∧
    (∀ m : MatchState, (updateUI m).gameOver = m.gameOver) ∧
    (∀ (k : Keys) (p : Player) (m : MatchState), m.gameOver = true →
      (p.die m).2.gameOver = true ∧ (p.checkSpikes cv m).2.gameOver = true ∧
      (Player.update k cv p m).2.gameOver = true) ∧
    (∀ (k : Keys) (g2 : Game), g2.m.gameOver = true →
      (update k cv g2).m.gameOver = true) := by
  have tick : ∀ (k : Keys) (g2 : Game), g2.m.gameOver = true → update k cv g2 = g2 := by
    intro k g2 h2
    unfold update
    rw [if_pos h2]
  refine ⟨tick keys g h, by rw [tick keys g h], ?_, fun _ _ => rfl, fun _ => rfl, ?_, ?_⟩
  · intro ks
    induction ks with
    | nil => rfl
    | cons k ks ih =>
      show runKeys cv ks (update k cv g) = g
      rw [tick k g h, ih]
  · intro k p m hm
    exact ⟨p.die_gameOver m hm, p.checkSpikes_gameOver cv m hm,
      Player.update_gameOver k cv p m hm⟩
  · intro k g2 h2
    rw [tick k g2 h2]
    exact h2

/-- C13, instance: the state after the tick of `doubleKO` is Over; a further
tick with every key held changes nothing. -/
theorem C13_over_is_terminal_witness :
    update allKeys arena (update noKeys arena doubleKO) = update noKeys arena doubleKO :=
  (C13_over_is_terminal allKeys arena (update noKeys arena doubleKO) (by decide!)).1

/-- The x after physics is the clamped x + vx, whatever the platforms. -/
theorem Player.applyPhysicsOn_x (cv : Canvas) (ps : List Platform) (p : Player) :
    (p.applyPhysicsOn cv ps).x
      = (if (if p.x + p.vx < 0 then 0 else p.x + p.vx) + p.w > cv.width
          then cv.width - p.w
          else (if p.x + p.vx < 0 then 0 else p.x + p.vx)) := by
  unfold Player.applyPhysicsOn
  dsimp only
  obtain ⟨y, vy, h⟩ := Player.foldl_collide_writes ps
    { p with vy := p.vy + GRAVITY_FORCE * (p.gravityDir : ℚ), x := p.x + p.vx,
             y := p.y + (p.vy + GRAVITY_FORCE * (p.gravityDir : ℚ)) }
  rw [h]
  dsimp only
  split_ifs <;> rfl

/-- C14: horizontal bounds clamp. For every player and every canvas with
width >= w, after `applyPhysics` (on the game platforms, and on any platform
list) 0 <= x <= width - w. The new x is the clamped x + vx: it is computed
from the previous x, vx, the width of the player and the canvas width only,
the same for any two platform lists. -/
theorem C14_horizontal_clamp (cv : Canvas) (ps ps2 : List Platform) (p q : Player)
    (hw : cv.width ≥ p.w) :
    0 ≤ (p.applyPhysics cv).x ∧ (p.applyPhysics cv).x ≤ cv.width - p.w ∧
    0 ≤ (p.applyPhysicsOn cv ps).x ∧ (p.applyPhysicsOn cv ps).x ≤ cv.width - p.w ∧
    (p.applyPhysicsOn cv ps).x = (p.applyPhysicsOn cv ps2).x ∧
    (p.applyPhysicsOn cv ps).x
      = (if (if p.x + p.vx < 0 then 0 else p.x + p.vx) + p.w > cv.width
          then cv.width - p.w
          else (if p.x + p.vx < 0 then 0 else p.x + p.vx)) ∧
    (q.x = p.x → q.vx = p.vx → q.w = p.w →
      (q.applyPhysicsOn cv ps2).x = (p.applyPhysicsOn cv ps).x) := by
  have bound : ∀ l : List Platform,
      0 ≤ (p.applyPhysicsOn cv l).x ∧ (p.applyPhysicsOn cv l).x ≤ cv.width - p.w := by
    intro l
    rw [Player.applyPhysicsOn_x]
    split_ifs with h1 h2 h2
    · exact ⟨by linarith, le_refl _⟩
    · exact ⟨le_refl _, by linarith⟩
    · exact ⟨by linarith, le_refl _⟩
    · exact ⟨by linarith, by linarith⟩
  refine ⟨(bound platforms).1, (bound platforms).2, (bound ps).1, (bound ps).2, ?_,
    Player.applyPhysicsOn_x cv ps p, ?_⟩
  · rw [Player.applyPhysicsOn_x, Player.applyPhysicsOn_x]
  · intro hx hvx hqw
    rw [Player.applyPhysicsOn_x, Player.applyPhysicsOn_x, hx, hvx, hqw]

/-- C14, instance: player 1 running left at x = 2 on the 1100 wide canvas stops
at the wall x = 0. -/
theorem C14_horizontal_clamp_witness :
    0 ≤ (Player.applyPhysics arena { p1 with x := 2, vx := -5 }).x ∧
    (Player.applyPhysics arena { p1 with x := 2, vx := -5 }).x ≤ arena.width - p1.w :=
  ⟨(C14_horizontal_clamp arena platforms [] { p1 with x := 2, vx := -5 } p1
      (by decide!)).1,
   (C14_horizontal_clamp arena platforms [] { p1 with x := 2, vx := -5 } p1
      (by decide!)).2.1⟩

/-! ### Combat lemmas -/

/-- The combat check returns the attacker as it was. -/
theorem checkCombat_fst (a d : Player) : (checkCombat a d).1 = a := by
  unfold checkCombat
  dsimp only
  split_ifs <;> rfl

/-- The combat check writes `stunned`, `vx` and `vy` of the defender only. -/
theorem checkCombat_writes (a d : Player) :
    ∃ st vx vy, (checkCombat a d).2 = { d with stunned := st, vx := vx, vy := vy } := by
  unfold checkCombat
  dsimp only
  split_ifs <;> exact ⟨_, _, _, rfl⟩

/-- The combat check reads `isAttacking`, `attackTimer`, `facing`, `x`, `w` and
`y` of the attacker only. -/
theorem checkCombat_snd_congr (a a2 d : Player) (h1 : a2.isAttacking = a.isAttacking)
    (h2 : a2.attackTimer = a.attackTimer) (h3 : a2.facing = a.facing) (h4 : a2.x = a.x)
    (h5 : a2.w = a.w) (h6 : a2.y = a.y) :
    (checkCombat a2 d).2 = (checkCombat a d).2 := by
  unfold checkCombat
  dsimp only
  rw [h1, h2, h3, h4, h5, h6]
  split_ifs <;> rfl

/-- C17: the two combat checks of a frame are order-independent. Running
`checkCombat(a, b)` then `checkCombat(b, a)` gives the same final pair of
players as running `checkCombat(b, a)` then `checkCombat(a, b)`, and in both
orders each player ends as the defender of the check run on the pre-combat
state of both. -/
theorem C17_combat_order_independent (a b : Player) :
    ((checkCombat (checkCombat a b).2 (checkCombat a b).1).2,
      (checkCombat (checkCombat a b).2 (checkCombat a b).1).1)
      = ((checkCombat (checkCombat b a).2 (checkCombat b a).1).1,
        (checkCombat (checkCombat b a).2 (checkCombat b a).1).2) ∧
    (checkCombat (checkCombat a b).2 (checkCombat a b).1).2 = (checkCombat b a).2 ∧
    (checkCombat (checkCombat a b).2 (checkCombat a b).1).1 = (checkCombat a b).2 ∧
    (checkCombat (checkCombat b a).2 (checkCombat b a).1).2 = (checkCombat a b).2 ∧
    (checkCombat (checkCombat b a).2 (checkCombat b a).1).1 = (checkCombat b a).2 := by
  have key : ∀ u v : Player,
      (checkCombat (checkCombat u v).2 (checkCombat u v).1).2 = (checkCombat v u).2 ∧
      (checkCombat (checkCombat u v).2 (checkCombat u v).1).1 = (checkCombat u v).2 := by
    intro u v
    obtain ⟨st, vx, vy, hw⟩ := checkCombat_writes u v
    rw [checkCombat_fst u v, checkCombat_fst]
    refine ⟨?_, rfl⟩
    apply checkCombat_snd_congr <;> rw [hw]
  obtain ⟨k1, k2⟩ := key a b
  obtain ⟨k3, k4⟩ := key b a
  refine ⟨?_, k1, k2, k3, k4⟩
  rw [k1, k2, k3, k4]

/-! ### The range invariant -/

theorem Player.cooldowns_inRange (p : Player) (h : p.inRange) : p.cooldowns.inRange := by
  obtain ⟨hg, hf, h3, h4, h5, h6⟩ := h
  unfold Player.cooldowns
  dsimp only
  split_ifs with hs
  · exact ⟨hg, hf, by show 0 ≤ p.swapTimer - 1; omega,
      by show p.swapTimer - 1 ≤ SWAP_COOLDOWN; omega, h5, h6⟩
  · exact ⟨hg, hf, by show 0 ≤ p.swapTimer - 1; omega,
      by show p.swapTimer - 1 ≤ SWAP_COOLDOWN; omega, h5, h6⟩
  · exact ⟨hg, hf, h3, h4, h5, h6⟩
  · exact ⟨hg, hf, h3, h4, h5, h6⟩

theorem Player.move_inRange (keys : Keys) (p : Player) (h : p.inRange) :
    (p.move keys).inRange := by
  obtain ⟨hg, hf, h3, h4, h5, h6⟩ := h
  unfold Player.move
  split_ifs
  · exact ⟨hg, Or.inr rfl, h3, h4, h5, h6⟩
  · exact ⟨hg, Or.inl rfl, h3, h4, h5, h6⟩
  · exact ⟨hg, hf, h3, h4, h5, h6⟩

theorem Player.jump_inRange (keys : Keys) (p : Player) (h : p.inRange) :
    (p.jump keys).inRange := by
  obtain ⟨vy, e⟩ := p.jump_writes keys
  rw [e]
  exact h

theorem Player.swap_inRange (keys : Keys) (p : Player) (h : p.inRange) :
    (p.swap keys).inRange := by
  obtain ⟨hg, hf, h3, h4, h5, h6⟩ := h
  unfold Player.swap
  split_ifs
  · refine ⟨?_, hf, (by decide : (0 : Int) ≤ SWAP_COOLDOWN), le_refl _, h5, h6⟩
    show p.gravityDir * -1 = 1 ∨ p.gravityDir * -1 = -1
    omega
  · exact ⟨hg, hf, h3, h4, h5, h6⟩

theorem Player.attack_inRange (keys : Keys) (p : Player) (h : p.inRange) :
    (p.attack keys).inRange := by
  obtain ⟨ia, art, act, e⟩ := p.attack_writes keys
  rw [e]
  exact h

theorem Player.applyPhysics_inRange (cv : Canvas) (p : Player) (h : p.inRange) :
    (p.applyPhysics cv).inRange := by
  obtain ⟨x, y, vy, e⟩ := p.applyPhysics_writes cv
  rw [e]
  exact h

theorem Player.checkSpikes_inRange (cv : Canvas) (p : Player) (m : MatchState)
    (hl : 0 < p.lives) (h : p.inRange) : (p.checkSpikes cv m).1.inRange := by
  obtain ⟨x, hr⟩ := Player.respawn_writes { p with lives := p.lives - 1 }
  unfold Player.checkSpikes
  by_cases hsp : p.inSpikes cv
  · obtain ⟨hg, hf, h3, h4, h5, h6⟩ := h
    have hl1 : 0 ≤ p.lives - 1 := by omega
    have hl2 : p.lives - 1 ≤ 3 := by omega
    rw [if_pos hsp]
    unfold Player.die
    dsimp only
    by_cases hd : p.lives - 1 ≤ 0
    · rw [if_pos hd]
      exact ⟨hg, hf, h3, h4, hl1, hl2⟩
    · rw [if_neg hd, hr]
      exact ⟨Or.inl rfl, hf, h3, h4, hl1, hl2⟩
  · rw [if_neg hsp]
    exact h

/-- A frame of a player keeps the ranges. -/
theorem Player.update_inRange (keys : Keys) (cv : Canvas) (p : Player) (m : MatchState)
    (h : p.inRange) : (Player.update keys cv p m).1.inRange := by
  by_cases hl : p.lives ≤ 0
  · unfold Player.update
    rw [if_pos hl]
    exact h
  · by_cases hs : p.stunned > 0
    · rw [Player.update_stunned keys cv p m (by omega) hs]
      apply Player.applyPhysics_inRange
      exact p.cooldowns_inRange h
    · rw [Player.update_unstunned keys cv p m (by omega) hs]
      apply Player.checkSpikes_inRange
      · rw [Player.preSpikes_lives]
        omega
      · apply Player.applyPhysics_inRange
        unfold Player.controls
        exact Player.attack_inRange _ _ (Player.swap_inRange _ _
          (Player.jump_inRange _ _ (Player.move_inRange _ _ (p.cooldowns_inRange h))))

/-- The combat check keeps the ranges of the defender. -/
theorem checkCombat_inRange (a d : Player) (h : d.inRange) :
    (checkCombat a d).2.inRange := by
  obtain ⟨st, vx, vy, e⟩ := checkCombat_writes a d
  rw [e]
  exact h

/-- A tick keeps the ranges of both players. -/
theorem tick_inRange (keys : Keys) (cv : Canvas) (g : Game)
    (h1 : g.p1.inRange) (h2 : g.p2.inRange) :
    (update keys cv g).p1.inRange ∧ (update keys cv g).p2.inRange := by
  unfold update
  by_cases ho : g.m.gameOver = true
  · rw [if_pos ho]
    exact ⟨h1, h2⟩
  · rw [if_neg ho]
    dsimp only
    have u1 := Player.update_inRange keys cv g.p1 g.m h1
    have u2 := Player.update_inRange keys cv g.p2 (Player.update keys cv g.p1 g.m).2 h2
    constructor
    · apply checkCombat_inRange
      rw [checkCombat_fst]
      exact u1
    · rw [checkCombat_fst]
      exact checkCombat_inRange _ _ u2

/-- C12: state-range invariant. In every state reached from the initial match
state (both players as constructed, gameOver false) by any number of game-loop
ticks, each under an arbitrary key state, on any canvas, each player has
gravityDir in {-1, 1}, facing in {-1, 1}, 0 <= swapTimer <= SWAP_COOLDOWN = 90
and 0 <= lives <= 3. -/
theorem C12_state_ranges (cv : Canvas) (ks : List Keys) :
    (((runKeys cv ks Game.init).p1.gravityDir = 1 ∨
        (runKeys cv ks Game.init).p1.gravityDir = -1) ∧
      ((runKeys cv ks Game.init).p1.facing = 1 ∨
        (runKeys cv ks Game.init).p1.facing = -1) ∧
      0 ≤ (runKeys cv ks Game.init).p1.swapTimer ∧
      (runKeys cv ks Game.init).p1.swapTimer ≤ SWAP_COOLDOWN ∧
      0 ≤ (runKeys cv ks Game.init).p1.lives ∧ (runKeys cv ks Game.init).p1.lives ≤ 3) ∧
    (((runKeys cv ks Game.init).p2.gravityDir = 1 ∨
        (runKeys cv ks Game.init).p2.gravityDir = -1) ∧
      ((runKeys cv ks Game.init).p2.facing = 1 ∨
        (runKeys cv ks Game.init).p2.facing = -1) ∧
      0 ≤ (runKeys cv ks Game.init).p2.swapTimer ∧
      (runKeys cv ks Game.init).p2.swapTimer ≤ SWAP_COOLDOWN ∧
      0 ≤ (runKeys cv ks Game.init).p2.lives ∧ (runKeys cv ks Game.init).p2.lives ≤ 3) ∧
    SWAP_COOLDOWN = 90 := by
  have run : ∀ (l : List Keys) (g : Game), g.p1.inRange → g.p2.inRange →
      (runKeys cv l g).p1.inRange ∧ (runKeys cv l g).p2.inRange := by
    intro l
    induction l with
    | nil => exact fun g h1 h2 => ⟨h1, h2⟩
    | cons k l ih =>
      intro g h1 h2
      have hu := tick_inRange k cv g h1 h2
      exact ih (update k cv g) hu.1 hu.2
  have h := run ks Game.init (by decide) (by decide)
  exact ⟨h.1, h.2, rfl⟩

/-! ### Ground detection -/

/-- The test on the central platform is the same closed box test for both
gravity directions. -/
theorem Player.onCentral_iff (p : Player) :
    p.onCentral = true ↔
      (p.gravityDir = 1 ∨ p.gravityDir = -1) ∧ p.y + p.h ≥ 280 ∧ p.y ≤ 320 ∧
      p.x + p.w > 250 ∧ p.x < 850 := by
  have e1 : (280 : ℚ) + 40 = 320 := by norm_num
  have e2 : (250 : ℚ) + 600 = 850 := by norm_num
  unfold Player.onCentral
  simp only [platforms, List.get]
  by_cases h1 : p.gravityDir = 1 ∧ p.y + p.h ≥ 280 ∧ p.y ≤ 280 + 40 ∧ p.x + p.w > 250 ∧
      p.x < 250 + 600
  · rw [if_pos h1]
    rw [e1, e2] at h1
    exact ⟨fun _ => ⟨Or.inl h1.1, h1.2⟩, fun _ => rfl⟩
  · rw [if_neg h1]
    by_cases h2 : p.gravityDir = -1 ∧ p.y ≤ 280 + 40 ∧ p.y + p.h ≥ 280 ∧ p.x + p.w > 250 ∧
        p.x < 250 + 600
    · rw [if_pos h2]
      rw [e1, e2] at h2
      exact ⟨fun _ => ⟨Or.inr h2.1, h2.2.2.1, h2.2.1, h2.2.2.2⟩, fun _ => rfl⟩
    · rw [if_neg h2]
      rw [e1, e2] at h1 h2
      constructor
      · intro h
        exact absurd h (by decide)
      · rintro ⟨hg | hg, ha, hb, hc, hd⟩
        · exact absurd ⟨hg, ha, hb, hc, hd⟩ h1
        · exact absurd ⟨hg, hb, ha, hc, hd⟩ h2

/-- A small platform that is not in range leaves `onGround` as it is. -/
theorem Player.onSmall_out (p : Player) (b : Bool) (pl : Platform)
    (h : ¬ ((p.x + p.w > pl.x ∧ p.x < pl.x + pl.w) ∧
            ((p.gravityDir = 1 ∧ |(p.y + p.h) - pl.y| < 10) ∨
             (p.gravityDir = -1 ∧ |p.y - (pl.y + pl.h)| < 10)))) :
    p.onSmall b pl = b := by
  unfold Player.onSmall
  by_cases hx : p.x + p.w > pl.x ∧ p.x < pl.x + pl.w
  · rw [if_pos hx]
    dsimp only
    rw [if_neg (fun hc => h ⟨hx, Or.inl hc⟩), if_neg (fun hc => h ⟨hx, Or.inr hc⟩)]
  · rw [if_neg hx]

/-- Small platforms that are not in range leave `onGround` as it is. -/
theorem Player.foldl_onSmall_out (p : Player) (b : Bool) (ps : List Platform)
    (h : ∀ pl ∈ ps, ¬ ((p.x + p.w > pl.x ∧ p.x < pl.x + pl.w) ∧
            ((p.gravityDir = 1 ∧ |(p.y + p.h) - pl.y| < 10) ∨
             (p.gravityDir = -1 ∧ |p.y - (pl.y + pl.h)| < 10)))) :
    ps.foldl p.onSmall b = b := by
  induction ps with
  | nil => rfl
  | cons pl ps ih =>
    rw [List.foldl_cons, p.onSmall_out b pl (h pl (List.mem_cons_self _ _))]
    exact ih (fun q hq => h q (List.mem_cons_of_mem _ hq))

/-- C16 (counterexample): the ground test on the central platform does not look
at the leading edge. `sunkInCentral` (gravityDir 1, living, unstunned, no side
platform in range) has its bottom edge at 340, outside 280..320, and is on
ground: with the jump key held the jump impulse is applied (vy -12 after the
jump, -11.5 after the frame, against 0.5 without the key). `invertedOnTop`
(gravityDir -1) has its top edge at 250, outside 280..320, and is on ground
too. -/
theorem C16_central_ground_not_leading_edge :
    sunkInCentral.gravityDir = 1 ∧ 0 < sunkInCentral.lives ∧ sunkInCentral.stunned = 0 ∧
    (sunkInCentral.x + sunkInCentral.w > 250 ∧ sunkInCentral.x < 850) ∧
    ¬ (280 ≤ sunkInCentral.y + sunkInCentral.h ∧ sunkInCentral.y + sunkInCentral.h ≤ 320) ∧
    sunkInCentral.onCentral = true ∧ sunkInCentral.onGround = true ∧
    (platforms.drop 1).foldl sunkInCentral.onSmall false = false ∧
    (sunkInCentral.jump (keydown noKeys "w")).vy = -12 ∧
    (Player.update (keydown noKeys "w") arena sunkInCentral MatchState.init).1.vy
      = -23 / 2 ∧
    (Player.update noKeys arena sunkInCentral MatchState.init).1.vy = 1 / 2 ∧
    invertedOnTop.gravityDir = -1 ∧
    ¬ (280 ≤ invertedOnTop.y ∧ invertedOnTop.y ≤ 320) ∧
    invertedOnTop.onCentral = true ∧
    (invertedOnTop.jump (keydown noKeys "w")).vy = 12 := by
  decide!

/-- C16 (amended): the central platform makes a player on ground exactly when
gravityDir is 1 or -1, the player horizontally overlaps it (x + w > 250 and
x < 850) and the box of the player meets its vertical span, bottom edge at or
below its top and top edge at or above its bottom (y + h >= 280 and y <= 320);
the test is the same for both gravity directions. The frame of a living,
unstunned player runs this test on its position and gravityDir at frame start.
With no side platform in range (no horizontal overlap within the tolerance of
10), `onGround` is this test, and the jump impulse vy = -JUMP_FORCE *
gravityDir is applied if and only if the jump control is held and the test
holds. -/
theorem C16_central_ground_box_test (keys : Keys) (p : Player)
    (hside : ∀ pl ∈ platforms.drop 1,
      ¬ ((p.x + p.w > pl.x ∧ p.x < pl.x + pl.w) ∧
         ((p.gravityDir = 1 ∧ |(p.y + p.h) - pl.y| < 10) ∨
          (p.gravityDir = -1 ∧ |p.y - (pl.y + pl.h)| < 10)))) :
    (p.onCentral = true ↔
      (p.gravityDir = 1 ∨ p.gravityDir = -1) ∧ p.y + p.h ≥ 280 ∧ p.y ≤ 320 ∧
      p.x + p.w > 250 ∧ p.x < 850) ∧
    (p.cooldowns.move keys).onCentral = p.onCentral ∧
    p.onGround = p.onCentral ∧
    (keys p.ctrl.jump = true ∧
        ((p.gravityDir = 1 ∨ p.gravityDir = -1) ∧ p.y + p.h ≥ 280 ∧ p.y ≤ 320 ∧
          p.x + p.w > 250 ∧ p.x < 850) →
      p.jump keys = { p with vy := -JUMP_FORCE * (p.gravityDir : ℚ) }) ∧
    (¬ (keys p.ctrl.jump = true ∧
        ((p.gravityDir = 1 ∨ p.gravityDir = -1) ∧ p.y + p.h ≥ 280 ∧ p.y ≤ 320 ∧
          p.x + p.w > 250 ∧ p.x < 850)) →
      p.jump keys = p) := by
  have hg : p.onGround = p.onCentral := by
    unfold Player.onGround
    exact p.foldl_onSmall_out _ _ hside
  refine ⟨p.onCentral_iff, ?_, hg, ?_, ?_⟩
  · obtain ⟨a, b, hc⟩ := p.cooldowns_writes
    obtain ⟨vx, fc, hm⟩ := p.cooldowns.move_writes keys
    rw [hm, hc]
    rfl
  · rintro ⟨hk, hc⟩
    unfold Player.jump
    dsimp only
    rw [if_pos ⟨hk, by rw [hg]; exact p.onCentral_iff.mpr hc⟩]
  · intro hn
    unfold Player.jump
    dsimp only
    rw [if_neg]
    rintro ⟨hk, ho⟩
    rw [hg] at ho
    exact hn ⟨hk, p.onCentral_iff.mp ho⟩

/-- C16 (amended), instance: `sunkInCentral` with its jump key "w" held. -/
theorem C16_central_ground_box_test_witness :
    sunkInCentral.onGround = sunkInCentral.onCentral ∧
    sunkInCentral.jump (keydown noKeys "w")
      = { sunkInCentral with vy := -JUMP_FORCE * (sunkInCentral.gravityDir : ℚ) } :=
  ⟨(C16_central_ground_box_test (keydown noKeys "w") sunkInCentral (by decide!)).2.2.1,
   (C16_central_ground_box_test (keydown noKeys "w") sunkInCentral (by decide!)).2.2.2.1
     (by decide!)⟩

/-! ### Resting on a platform -/

/-- A platform whose box the player does not overlap does not move it. -/
theorem Player.collide_miss_box (p : Player) (pl : Platform)
    (h : ¬ (p.x < pl.x + pl.w ∧ p.x + p.w > pl.x ∧ p.y < pl.y + pl.h ∧ p.y + p.h > pl.y)) :
    p.collide pl = p := by
  unfold Player.collide
  rw [if_neg h]

/-- A player with vy = 0 is not moved by any platform. -/
theorem Player.collide_still (p : Player) (pl : Platform) (h : p.vy = 0) :
    p.collide pl = p := by
  unfold Player.collide
  split_ifs with h1 h2 h3
  · exact absurd h2.1 (by rw [h]; exact lt_irrefl 0)
  · exact absurd h3.1 (by rw [h]; exact lt_irrefl 0)
  · rfl
  · rfl

/-- Landing under normal gravity: the player is put on top of the platform. -/
theorem Player.collide_land_down (p : Player) (pl : Platform)
    (ho : p.x < pl.x + pl.w ∧ p.x + p.w > pl.x ∧ p.y < pl.y + pl.h ∧ p.y + p.h > pl.y)
    (hd : p.vy > 0 ∧ p.gravityDir = 1 ∧ p.y + p.h < pl.y + pl.h) :
    p.collide pl = { p with y := pl.y - p.h, vy := 0 } := by
  unfold Player.collide
  rw [if_pos ho, if_pos hd]

/-- Landing under inverted gravity: the player is put under the platform. -/
theorem Player.collide_land_up (p : Player) (pl : Platform)
    (ho : p.x < pl.x + pl.w ∧ p.x + p.w > pl.x ∧ p.y < pl.y + pl.h ∧ p.y + p.h > pl.y)
    (hu : p.vy < 0 ∧ p.gravityDir = -1 ∧ p.y > pl.y) :
    p.collide pl = { p with y := pl.y + pl.h, vy := 0 } := by
  unfold Player.collide
  rw [if_pos ho, if_neg (fun hc => absurd hc.1 (not_lt.mpr (le_of_lt hu.1))), if_pos hu]

/-- The collision loop of a player that lands on one platform of the list,
misses the others before landing and is not moved after landing. -/
theorem Player.foldl_collide_settle (r s : Player) (pl : Platform) (ps : List Platform)
    (hland : r.collide pl = s) (hstay : ∀ q : Platform, s.collide q = s)
    (hmiss : ∀ q ∈ ps, q = pl ∨ r.collide q = r) (hmem : pl ∈ ps) :
    ps.foldl Player.collide r = s := by
  have stay : ∀ l : List Platform, l.foldl Player.collide s = s := by
    intro l
    induction l with
    | nil => rfl
    | cons q l ih => rw [List.foldl_cons, hstay q, ih]
  induction ps with
  | nil => exact absurd hmem (List.not_mem_nil _)
  | cons q ps ih =>
    rw [List.foldl_cons]
    rcases hmiss q (List.mem_cons_self _ _) with hq | hq
    · rw [hq, hland]
      exact stay ps
    · rw [hq]
      rcases List.mem_cons.mp hmem with hp | hp
      · have : s = r := by rw [← hland, hp, hq]
        rw [← this]
        exact stay ps
      · exact ih (fun t ht => hmiss t (List.mem_cons_of_mem _ ht)) hp

/-- Every platform of the game starts at x >= 50 and is at least 20 high. -/
theorem platforms_bounds : ∀ pl ∈ platforms, 50 ≤ pl.x ∧ 20 ≤ pl.h := by
  decide!

/-- The collision loop of the game puts a 30 x 30 player that has just sunk by
0.5 into the top of a platform back on top of it. -/
theorem Player.foldl_collide_land_down (r : Player) (pl : Platform) (hmem : pl ∈ platforms)
    (hw : r.w = 30) (hh : r.h = 30) (hgd : r.gravityDir = 1) (hvy : r.vy = 1 / 2)
    (hy : r.y = pl.y - 30 + 1 / 2) (hx : r.x + r.w > pl.x ∧ r.x < pl.x + pl.w) :
    platforms.foldl Player.collide r = { r with y := pl.y - r.h, vy := 0 } := by
  have hb := platforms_bounds pl hmem
  apply Player.foldl_collide_settle r _ pl platforms
  · apply Player.collide_land_down
    · refine ⟨hx.2, hx.1, ?_, ?_⟩ <;> rw [hy] <;> [skip; rw [hh]] <;> linarith [hb.2]
    · refine ⟨by rw [hvy]; norm_num, hgd, ?_⟩
      rw [hy, hh]
      linarith [hb.2]
  · intro q
    exact Player.collide_still _ q rfl
  · intro q hq
    simp only [platforms, List.mem_cons, List.mem_singleton, List.not_mem_nil,
      or_false] at hmem hq
    rcases hmem with rfl | rfl | rfl | rfl | rfl <;>
    rcases hq with rfl | rfl | rfl | rfl | rfl <;>
    first
      | exact Or.inl rfl
      | (right
         apply Player.collide_miss_box
         rintro ⟨c1, c2, c3, c4⟩
         rw [hy] at c3 c4
         rw [hh] at c4
         rw [hw] at c2 hx
         norm_num at c1 c2 c3 c4 hx <;> linarith [hx.1, hx.2])
  · exact hmem

/-- The collision loop of the game puts a 30 x 30 player that has just risen by
0.5 into the underside of a platform back under it. -/
theorem Player.foldl_collide_land_up (r : Player) (pl : Platform) (hmem : pl ∈ platforms)
    (hw : r.w = 30) (hh : r.h = 30) (hgd : r.gravityDir = -1) (hvy : r.vy = -1 / 2)
    (hy : r.y = pl.y + pl.h - 1 / 2) (hx : r.x + r.w > pl.x ∧ r.x < pl.x + pl.w) :
    platforms.foldl Player.collide r = { r with y := pl.y + pl.h, vy := 0 } := by
  have hb := platforms_bounds pl hmem
  apply Player.foldl_collide_settle r _ pl platforms
  · apply Player.collide_land_up
    · refine ⟨hx.2, hx.1, ?_, ?_⟩ <;> rw [hy] <;> [skip; rw [hh]] <;> linarith [hb.2]
    · refine ⟨by rw [hvy]; norm_num, hgd, ?_⟩
      rw [hy]
      linarith [hb.2]
  · intro q
    exact Player.collide_still _ q rfl
  · intro q hq
    simp only [platforms, List.mem_cons, List.mem_singleton, List.not_mem_nil,
      or_false] at hmem hq
    rcases hmem with rfl | rfl | rfl | rfl | rfl <;>
    rcases hq with rfl | rfl | rfl | rfl | rfl <;>
    first
      | exact Or.inl rfl
      | (right
         apply Player.collide_miss_box
         rintro ⟨c1, c2, c3, c4⟩
         rw [hy] at c3 c4
         rw [hh] at c4
         rw [hw] at c2 hx
         norm_num at c1 c2 c3 c4 hx <;> linarith [hx.1, hx.2])
  · exact hmem

/-- Physics from the result of the collision loop, when no wall is touched. -/
theorem Player.applyPhysics_of_foldl (cv : Canvas) (q s : Player)
    (hf : platforms.foldl Player.collide
        { q with vy := q.vy + GRAVITY_FORCE * (q.gravityDir : ℚ), x := q.x + q.vx,
                 y := q.y + (q.vy + GRAVITY_FORCE * (q.gravityDir : ℚ)) } = s)
    (h0 : ¬ s.x < 0) (h1 : ¬ s.x + s.w > cv.width) : q.applyPhysics cv = s := by
  unfold Player.applyPhysics Player.applyPhysicsOn
  dsimp only
  rw [hf, if_neg h0, if_neg h1]

/-- With the left, right, jump and swap controls released the control
processing only stops the horizontal motion and runs the attack stage. -/
theorem Player.controls_idle (keys : Keys) (p : Player)
    (kl : keys p.ctrl.left = false) (kr : keys p.ctrl.right = false)
    (kj : keys p.ctrl.jump = false) (ks : keys p.ctrl.swap = false) :
    ∃ a ia art act, p.cooldowns.controls keys
      = { p with swapTimer := a, vx := 0, isAttacking := ia, attackTimer := art,
                 attackCooldownTimer := act } := by
  obtain ⟨a, b, hc⟩ := p.cooldowns_writes
  have hm : p.cooldowns.move keys = { p.cooldowns with vx := 0 } := by
    unfold Player.move
    rw [hc]
    dsimp only
    rw [if_neg (by simp [kl]), if_neg (by simp [kr])]
  have hj : (p.cooldowns.move keys).jump keys = p.cooldowns.move keys := by
    unfold Player.jump
    dsimp only
    rw [if_neg]
    rintro ⟨hk, -⟩
    rw [hm, hc] at hk
    exact absurd (kj.symm.trans hk) (by decide)
  have hsw := ((p.cooldowns.move keys).jump keys).swap_released keys
    (by rw [hj, hm, hc]; exact ks)
  obtain ⟨ia, art, act, hat⟩ := ((p.cooldowns.move keys).jump keys).attack_writes keys
  refine ⟨a, ia, art, act, ?_⟩
  unfold Player.controls
  rw [hsw, hat, hj, hm, hc]

/-- C18: resting on a platform is a fixed point of the frame. For every
platform of the game, a living, unstunned 30 x 30 player inside the field
(x + w <= canvas width) and outside the spike bands, with vx = vy = 0, the left,
right, jump and swap controls released, horizontally overlapping the platform,
and either gravityDir = 1 with y = platform.y - h (standing on top) or
gravityDir = -1 with y = platform.y + platform.h (standing on the underside),
has after `Player.update` the same x, y, gravityDir and lives, vx = 0 and
vy = 0; the match state is unchanged. -/
theorem C18_rest_fixed_point (keys : Keys) (cv : Canvas) (p : Player) (m : MatchState)
    (pl : Platform) (hpl : pl ∈ platforms)
    (hl : 0 < p.lives) (hs : p.stunned = 0) (hw : p.w = 30) (hh : p.h = 30)
    (kl : keys p.ctrl.left = false) (kr : keys p.ctrl.right = false)
    (kj : keys p.ctrl.jump = false) (ks : keys p.ctrl.swap = false)
    (hvy : p.vy = 0)
    (hx : p.x + p.w > pl.x ∧ p.x < pl.x + pl.w)
    (hout : ¬ p.inSpikes cv) (hfield : p.x + p.w ≤ cv.width)
    (hrest : (p.gravityDir = 1 ∧ p.y = pl.y - p.h) ∨
             (p.gravityDir = -1 ∧ p.y = pl.y + pl.h)) :
    (Player.update keys cv p m).1.x = p.x ∧
    (Player.update keys cv p m).1.y = p.y ∧
    (Player.update keys cv p m).1.vx = 0 ∧
    (Player.update keys cv p m).1.vy = 0 ∧
    (Player.update keys cv p m).1.gravityDir = p.gravityDir ∧
    (Player.update keys cv p m).1.lives = p.lives ∧
    (Player.update keys cv p m).2 = m := by
  obtain ⟨a, ia, art, act, hctl⟩ := Player.controls_idle keys p kl kr kj ks
  have hb := platforms_bounds pl hpl
  have hphys : (p.cooldowns.controls keys).applyPhysics cv
      = { p with swapTimer := a, vx := 0, vy := 0, isAttacking := ia, attackTimer := art,
                 attackCooldownTimer := act } := by
    rw [hctl]
    apply Player.applyPhysics_of_foldl
    · dsimp only
      rcases hrest with ⟨hgd, hy⟩ | ⟨hgd, hy⟩
      · refine (Player.foldl_collide_land_down _ pl hpl ?_ ?_ ?_ ?_ ?_ ?_).trans ?_
        · exact hw
        · exact hh
        · exact hgd
        · show p.vy + GRAVITY_FORCE * (p.gravityDir : ℚ) = 1 / 2
          rw [hvy, hgd]
          norm_num [GRAVITY_FORCE]
        · show p.y + (p.vy + GRAVITY_FORCE * (p.gravityDir : ℚ)) = pl.y - 30 + 1 / 2
          rw [hvy, hgd, hy, hh]
          norm_num [GRAVITY_FORCE]
        · show p.x + 0 + p.w > pl.x ∧ p.x + 0 < pl.x + pl.w
          rw [add_zero]
          exact hx
        · dsimp only
          rw [add_zero, ← hy]
      · refine (Player.foldl_collide_land_up _ pl hpl ?_ ?_ ?_ ?_ ?_ ?_).trans ?_
        · exact hw
        · exact hh
        · exact hgd
        · show p.vy + GRAVITY_FORCE * (p.gravityDir : ℚ) = -1 / 2
          rw [hvy, hgd]
          norm_num [GRAVITY_FORCE]
        · show p.y + (p.vy + GRAVITY_FORCE * (p.gravityDir : ℚ)) = pl.y + pl.h - 1 / 2
          rw [hvy, hgd, hy]
          norm_num [GRAVITY_FORCE]
          ring
        · show p.x + 0 + p.w > pl.x ∧ p.x + 0 < pl.x + pl.w
          rw [add_zero]
          exact hx
        · dsimp only
          rw [add_zero, ← hy]
    · show ¬ p.x < 0
      rw [hw] at hx
      linarith [hx.1, hb.1]
    · show ¬ p.x + p.w > cv.width
      exact not_lt.mpr hfield
  have hu : Player.update keys cv p m
      = ({ p with swapTimer := a, vx := 0, vy := 0, isAttacking := ia, attackTimer := art,
                  attackCooldownTimer := act }, m) := by
    rw [Player.update_unstunned keys cv p m hl (by omega), hphys]
    have hsafe : ¬ Player.inSpikes cv
        { p with swapTimer := a, vx := 0, vy := 0, isAttacking := ia, attackTimer := art,
                 attackCooldownTimer := act } := hout
    unfold Player.checkSpikes
    rw [if_neg hsafe]
  rw [hu]
  exact ⟨rfl, rfl, rfl, rfl, rfl, rfl, rfl⟩

/-- C18, instances: player 1 standing on the lower left platform, and hanging
under the central platform with inverted gravity, no key held. -/
theorem C18_rest_fixed_point_witness :
    ((Player.update noKeys arena restingLowLeft MatchState.init).1.x = restingLowLeft.x ∧
      (Player.update noKeys arena restingLowLeft MatchState.init).1.y = restingLowLeft.y ∧
      (Player.update noKeys arena restingLowLeft MatchState.init).1.vx = 0 ∧
      (Player.update noKeys arena restingLowLeft MatchState.init).1.vy = 0 ∧
      (Player.update noKeys arena restingLowLeft MatchState.init).1.gravityDir
        = restingLowLeft.gravityDir ∧
      (Player.update noKeys arena restingLowLeft MatchState.init).1.lives
        = restingLowLeft.lives ∧
      (Player.update noKeys arena restingLowLeft MatchState.init).2 = MatchState.init) ∧
    (Player.update noKeys arena hangingUnderCentral MatchState.init).1.y
      = hangingUnderCentral.y :=
  ⟨C18_rest_fixed_point noKeys arena restingLowLeft MatchState.init
      { x := 50, y := 400, w := 100, h := 20 } (by decide!) (by decide!) (by decide!)
      (by decide!) (by decide!) (by decide!) (by decide!) (by decide!) (by decide!)
      (by decide!) (by decide!) (by decide!) (by decide!) (by decide!),
   (C18_rest_fixed_point noKeys arena hangingUnderCentral MatchState.init
      { x := 250, y := 280, w := 600, h := 40 } (by decide!) (by decide!) (by decide!)
      (by decide!) (by decide!) (by decide!) (by decide!) (by decide!) (by decide!)
      (by decide!) (by decide!) (by decide!) (by decide!) (by decide!)).2.1⟩

/-! ### The attack state -/

/-- The spike check leaves the attack fields alone, and a player that is not
stunned stays so. -/
theorem Player.checkSpikes_attack (cv : Canvas) (p : Player) (m : MatchState) :
    (p.checkSpikes cv m).1.isAttacking = p.isAttacking ∧
    (p.checkSpikes cv m).1.attackTimer = p.attackTimer ∧
    (p.checkSpikes cv m).1.attackCooldownTimer = p.attackCooldownTimer ∧
    (¬ p.stunned > 0 → ¬ (p.checkSpikes cv m).1.stunned > 0) := by
  obtain ⟨x, hr⟩ := Player.respawn_writes { p with lives := p.lives - 1 }
  unfold Player.checkSpikes
  by_cases hsp : p.inSpikes cv
  · rw [if_pos hsp]
    unfold Player.die
    dsimp only
    by_cases hl : p.lives - 1 ≤ 0
    · rw [if_pos hl]
      exact ⟨rfl, rfl, rfl, fun h => h⟩
    · rw [if_neg hl, hr]
      exact ⟨rfl, rfl, rfl, fun _ => (by decide : ¬ (0 : Int) > 0)⟩
  · rw [if_neg hsp]
    exact ⟨rfl, rfl, rfl, fun h => h⟩

/-- The attack cooldown after the countdown of lines 48-49. -/
theorem Player.cooldowns_attackCooldownTimer (p : Player) :
    p.cooldowns.attackCooldownTimer
      = if p.attackCooldownTimer > 0 then p.attackCooldownTimer - 1
        else p.attackCooldownTimer := by
  unfold Player.cooldowns
  dsimp only
  split_ifs <;> rfl

/-- The attack stage when no attack starts. -/
theorem Player.attack_no_start (keys : Keys) (p : Player)
    (h : ¬ (keys p.ctrl.atk = true ∧ p.attackCooldownTimer = 0)) :
    p.attack keys
      = if p.isAttacking = true then
          (if p.attackTimer - 1 ≤ 0 then
            { p with attackTimer := p.attackTimer - 1, isAttacking := false }
          else { p with attackTimer := p.attackTimer - 1 })
        else p := by
  have e : (if keys p.ctrl.atk = true ∧ p.attackCooldownTimer = 0 then
      { p with isAttacking := true, attackTimer := ATTACK_DURATION,
               attackCooldownTimer := ATTACK_COOLDOWN } else p) = p := if_neg h
  unfold Player.attack
  simp only [e]

/-- The attack stage when an attack starts: the hitbox is active for
ATTACK_DURATION - 1 more frames and the cooldown is set. -/
theorem Player.attack_start (keys : Keys) (p : Player) (hk : keys p.ctrl.atk = true)
    (hc : p.attackCooldownTimer = 0) :
    p.attack keys = { p with isAttacking := true, attackTimer := ATTACK_DURATION - 1,
                             attackCooldownTimer := ATTACK_COOLDOWN } := by
  have e : (if keys p.ctrl.atk = true ∧ p.attackCooldownTimer = 0 then
      { p with isAttacking := true, attackTimer := ATTACK_DURATION,
               attackCooldownTimer := ATTACK_COOLDOWN } else p)
      = { p with isAttacking := true, attackTimer := ATTACK_DURATION,
                 attackCooldownTimer := ATTACK_COOLDOWN } := if_pos ⟨hk, hc⟩
  unfold Player.attack
  simp only [e]
  rfl

/-- After the attack stage an attacking player has attackTimer > 0. -/
theorem Player.attack_timer_pos (keys : Keys) (p : Player)
    (h : (p.attack keys).isAttacking = true) : (p.attack keys).attackTimer > 0 := by
  by_cases hst : keys p.ctrl.atk = true ∧ p.attackCooldownTimer = 0
  · rw [Player.attack_start keys p hst.1 hst.2]
    show ATTACK_DURATION - 1 > 0
    decide
  · rw [Player.attack_no_start keys p hst] at h ⊢
    by_cases ha : p.isAttacking = true
    · rw [if_pos ha] at h ⊢
      by_cases ht : p.attackTimer - 1 ≤ 0
      · rw [if_pos ht] at h
        exact absurd h Bool.false_ne_true
      · rw [if_neg ht]
        show p.attackTimer - 1 > 0
        omega
    · rw [if_neg ha] at h
      exact absurd h ha

/-- The attack stage within the cooldown: no start, the timer of a running
attack counts down and the attack ends when it reaches 0. -/
theorem Player.attack_cooling (keys : Keys) (p : Player) (hc : p.attackCooldownTimer ≠ 0) :
    (p.attack keys).attackCooldownTimer = p.attackCooldownTimer ∧
    (p.isAttacking = true →
      (p.attack keys).attackTimer = p.attackTimer - 1 ∧
      ((p.attack keys).isAttacking = true ↔ 0 < p.attackTimer - 1)) ∧
    (p.isAttacking = false →
      (p.attack keys).attackTimer = p.attackTimer ∧ (p.attack keys).isAttacking = false) := by
  rw [Player.attack_no_start keys p (fun h => hc h.2)]
  by_cases ha : p.isAttacking = true
  · rw [if_pos ha]
    by_cases ht : p.attackTimer - 1 ≤ 0
    · rw [if_pos ht]
      refine ⟨rfl, fun _ => ⟨rfl, ?_⟩, fun hf => absurd ha (by rw [hf]; decide)⟩
      constructor
      · intro h
        exact absurd h Bool.false_ne_true
      · intro h
        omega
    · rw [if_neg ht]
      refine ⟨rfl, fun _ => ⟨rfl, ?_⟩, fun hf => absurd ha (by rw [hf]; decide)⟩
      constructor
      · intro _
        omega
      · intro _
        exact ha
  · rw [if_neg ha]
    exact ⟨rfl, fun h => absurd h ha, fun hf => ⟨rfl, hf⟩⟩

/-- The attack fields after the frame of a living, unstunned player are those
of the attack stage run on a player with the control mapping and attack fields
of the frame start and the counted-down cooldown; the player stays
unstunned. -/
theorem Player.update_attack (keys : Keys) (cv : Canvas) (p : Player) (m : MatchState)
    (hl : 0 < p.lives) (hs : ¬ p.stunned > 0) :
    ∃ q : Player, q.ctrl = p.ctrl ∧ q.isAttacking = p.isAttacking ∧
      q.attackTimer = p.attackTimer ∧
      q.attackCooldownTimer = p.cooldowns.attackCooldownTimer ∧
      (Player.update keys cv p m).1.isAttacking = (q.attack keys).isAttacking ∧
      (Player.update keys cv p m).1.attackTimer = (q.attack keys).attackTimer ∧
      (Player.update keys cv p m).1.attackCooldownTimer
        = (q.attack keys).attackCooldownTimer ∧
      ¬ (Player.update keys cv p m).1.stunned > 0 := by
  obtain ⟨a, b, hc⟩ := p.cooldowns_writes
  obtain ⟨vx, fc, h1⟩ := p.cooldowns.move_writes keys
  obtain ⟨vy, h2⟩ := (p.cooldowns.move keys).jump_writes keys
  obtain ⟨gd, st, vy2, h3⟩ := ((p.cooldowns.move keys).jump keys).swap_writes keys
  obtain ⟨ia, art, act, h4⟩ :=
    (((p.cooldowns.move keys).jump keys).swap keys).attack_writes keys
  obtain ⟨x, y, vy3, h5⟩ := Player.applyPhysics_writes cv (p.cooldowns.controls keys)
  have hq := Player.checkSpikes_attack cv ((p.cooldowns.controls keys).applyPhysics cv) m
  refine ⟨((p.cooldowns.move keys).jump keys).swap keys, ?_, ?_, ?_, ?_, ?_, ?_, ?_, ?_⟩
  · rw [h3, h2, h1, hc]
  · rw [h3, h2, h1, hc]
  · rw [h3, h2, h1, hc]
  · rw [h3, h2, h1]
  · rw [Player.update_unstunned keys cv p m hl hs, hq.1, h5]
    rfl
  · rw [Player.update_unstunned keys cv p m hl hs, hq.2.1, h5]
    rfl
  · rw [Player.update_unstunned keys cv p m hl hs, hq.2.2.1, h5]
    rfl
  · rw [Player.update_unstunned keys cv p m hl hs]
    apply hq.2.2.2
    rw [h5]
    unfold Player.controls
    rw [h4, h3, h2, h1, hc]
    exact hs

/-- A frame keeps "isAttacking implies attackTimer > 0". -/
theorem Player.update_attack_inv (keys : Keys) (cv : Canvas) (p : Player) (m : MatchState)
    (h : p.isAttacking = true → p.attackTimer > 0) :
    (Player.update keys cv p m).1.isAttacking = true →
      (Player.update keys cv p m).1.attackTimer > 0 := by
  by_cases hl : p.lives ≤ 0
  · unfold Player.update
    rw [if_pos hl]
    exact h
  · by_cases hs : p.stunned > 0
    · rw [Player.update_stunned keys cv p m (by omega) hs]
      obtain ⟨a, b, hc⟩ := p.cooldowns_writes
      obtain ⟨x, y, vy, hp⟩ := Player.applyPhysics_writes cv
        { p.cooldowns with stunned := p.cooldowns.stunned - 1 }
      rw [hp, hc]
      exact h
    · obtain ⟨q, -, -, -, -, e1, e2, -, -⟩ := Player.update_attack keys cv p m (by omega) hs
      rw [e1, e2]
      exact Player.attack_timer_pos keys q

/-- A tick keeps "isAttacking implies attackTimer > 0" for both players. -/
theorem tick_attack_inv (keys : Keys) (cv : Canvas) (g : Game)
    (h1 : g.p1.isAttacking = true → g.p1.attackTimer > 0)
    (h2 : g.p2.isAttacking = true → g.p2.attackTimer > 0) :
    ((update keys cv g).p1.isAttacking = true → (update keys cv g).p1.attackTimer > 0) ∧
    ((update keys cv g).p2.isAttacking = true → (update keys cv g).p2.attackTimer > 0) := by
  unfold update
  by_cases ho : g.m.gameOver = true
  · rw [if_pos ho]
    exact ⟨h1, h2⟩
  · rw [if_neg ho]
    dsimp only
    have u1 := Player.update_attack_inv keys cv g.p1 g.m h1
    have u2 := Player.update_attack_inv keys cv g.p2 (Player.update keys cv g.p1 g.m).2 h2
    obtain ⟨st, vx, vy, e2⟩ := checkCombat_writes (Player.update keys cv g.p1 g.m).1
      (Player.update keys cv g.p2 (Player.update keys cv g.p1 g.m).2).1
    constructor
    · obtain ⟨st1, vx1, vy1, e1⟩ := checkCombat_writes
        (checkCombat (Player.update keys cv g.p1 g.m).1
          (Player.update keys cv g.p2 (Player.update keys cv g.p1 g.m).2).1).2
        (checkCombat (Player.update keys cv g.p1 g.m).1
          (Player.update keys cv g.p2 (Player.update keys cv g.p1 g.m).2).1).1
      rw [e1, checkCombat_fst]
      exact u1
    · rw [checkCombat_fst, e2]
      exact u2

/-- The attack invariant holds in every state reached from the initial one. -/
theorem runKeys_attack_inv (cv : Canvas) (l : List Keys) :
    ((runKeys cv l Game.init).p1.isAttacking = true →
      (runKeys cv l Game.init).p1.attackTimer > 0) ∧
    ((runKeys cv l Game.init).p2.isAttacking = true →
      (runKeys cv l Game.init).p2.attackTimer > 0) := by
  have run : ∀ (ks : List Keys) (g : Game),
      (g.p1.isAttacking = true → g.p1.attackTimer > 0) →
      (g.p2.isAttacking = true → g.p2.attackTimer > 0) →
      ((runKeys cv ks g).p1.isAttacking = true → (runKeys cv ks g).p1.attackTimer > 0) ∧
      ((runKeys cv ks g).p2.isAttacking = true → (runKeys cv ks g).p2.attackTimer > 0) := by
    intro ks
    induction ks with
    | nil => exact fun g h1 h2 => ⟨h1, h2⟩
    | cons k ks ih =>
      intro g h1 h2
      have hu := tick_attack_inv k cv g h1 h2
      exact ih (update k cv g) hu.1 hu.2
  exact run l Game.init (fun h => absurd h Bool.false_ne_true)
    (fun h => absurd h Bool.false_ne_true)

/-- The attack fields over the 30 frames after an attack start, for a player
that stays alive and is never stunned. -/
theorem Player.attack_window (ks : Nat → Keys) (cv : Canvas) (p : Player) (m : MatchState)
    (hs : ¬ p.stunned > 0)
    (hlive : ∀ n ≤ 29, 0 < (Player.framesWith ks cv n (p, m)).1.lives)
    (hk : ks 0 p.ctrl.atk = true)
    (hc0 : 0 ≤ p.attackCooldownTimer) (hc1 : p.attackCooldownTimer ≤ 1) (n : Nat)
    (hn : n ≤ 29) :
    ¬ (Player.framesWith ks cv (n + 1) (p, m)).1.stunned > 0 ∧
    (Player.framesWith ks cv (n + 1) (p, m)).1.attackCooldownTimer = 30 - (n : Int) ∧
    (n + 1 ≤ 9 →
      (Player.framesWith ks cv (n + 1) (p, m)).1.isAttacking = true ∧
      (Player.framesWith ks cv (n + 1) (p, m)).1.attackTimer = 9 - (n : Int)) ∧
    (10 ≤ n + 1 → (Player.framesWith ks cv (n + 1) (p, m)).1.isAttacking = false) := by
  induction n with
  | zero =>
    show ¬ (Player.update (ks 0) cv p m).1.stunned > 0 ∧
      (Player.update (ks 0) cv p m).1.attackCooldownTimer = 30 - ((0 : Nat) : Int) ∧
      (0 + 1 ≤ 9 → (Player.update (ks 0) cv p m).1.isAttacking = true ∧
        (Player.update (ks 0) cv p m).1.attackTimer = 9 - ((0 : Nat) : Int)) ∧
      (10 ≤ 0 + 1 → (Player.update (ks 0) cv p m).1.isAttacking = false)
    obtain ⟨q, hq1, -, -, hq4, e1, e2, e3, e4⟩ :=
      Player.update_attack (ks 0) cv p m (hlive 0 (by omega)) hs
    have hq0 : q.attackCooldownTimer = 0 := by
      rw [hq4, Player.cooldowns_attackCooldownTimer]
      split_ifs <;> omega
    have hst := Player.attack_start (ks 0) q (by rw [hq1]; exact hk) hq0
    rw [hst] at e1 e2 e3
    refine ⟨e4, ?_, fun _ => ⟨e1, ?_⟩, fun h => by omega⟩
    · rw [e3]
      rfl
    · rw [e2]
      rfl
  | succ n ih =>
    obtain ⟨i1, i2, i3, i4⟩ := ih (by omega)
    have hl := hlive (n + 1) (by omega)
    obtain ⟨q, -, hq2, hq3, hq4, e1, e2, e3, e4⟩ :=
      Player.update_attack (ks (n + 1)) cv (Player.framesWith ks cv (n + 1) (p, m)).1
        (Player.framesWith ks cv (n + 1) (p, m)).2 hl i1
    have hqc : q.attackCooldownTimer = 29 - (n : Int) := by
      rw [hq4, Player.cooldowns_attackCooldownTimer, i2]
      split_ifs <;> omega
    obtain ⟨c1, c2, c3⟩ := Player.attack_cooling (ks (n + 1)) q (by rw [hqc]; omega)
    have step : Player.framesWith ks cv (n + 1 + 1) (p, m)
        = Player.update (ks (n + 1)) cv (Player.framesWith ks cv (n + 1) (p, m)).1
            (Player.framesWith ks cv (n + 1) (p, m)).2 := rfl
    rw [step]
    refine ⟨e4, ?_, ?_, ?_⟩
    · rw [e3, c1, hqc]
      push_cast
      omega
    · intro h9
      obtain ⟨j1, j2⟩ := i3 (by omega)
      obtain ⟨d1, d2⟩ := c2 (hq2.trans j1)
      rw [e1, e2, d1, hq3, j2]
      refine ⟨d2.mpr ?_, ?_⟩
      · rw [hq3, j2]
        omega
      · push_cast
        omega
    · intro h10
      rw [e1]
      by_cases h9 : n + 1 ≤ 9
      · obtain ⟨j1, j2⟩ := i3 h9
        obtain ⟨d1, d2⟩ := c2 (hq2.trans j1)
        cases hb : (q.attack (ks (n + 1))).isAttacking
        · rfl
        · have := d2.mp hb
          rw [hq3, j2] at this
          omega
      · exact (c3 (hq2.trans (i4 (by omega)))).2

/-- C19: attack state invariant and active window. (1) Every `Player.update`
keeps "isAttacking implies attackTimer > 0", from any player state; (2) so in
every state reached from the initial match state both players satisfy it, and
the attackTimer > 0 test of `checkCombat` never decides there. (3) For a player
that is alive at the start of each of the frames 0..29 and not stunned, with
the attack control held at frame 0 and an attack cooldown of 0 or 1 at the
start of that frame, whatever keys are held afterwards: after frame n - 1,
that is at the combat phase of that frame, isAttacking is true with
attackTimer = ATTACK_DURATION - n for n = 1..9 (timer 9 down to 1) and false
for n = 10..30; attackCooldownTimer is 31 - n for n = 1..30, so that no attack
can start in the frames 1..29 and one can start again in frame 30. -/
theorem C19_attack_window (ks : Nat → Keys) (cv : Canvas) (p : Player) (m : MatchState)
    (hs : ¬ p.stunned > 0)
    (hlive : ∀ n ≤ 29, 0 < (Player.framesWith ks cv n (p, m)).1.lives)
    (hk : ks 0 p.ctrl.atk = true)
    (hc0 : 0 ≤ p.attackCooldownTimer) (hc1 : p.attackCooldownTimer ≤ 1) :
    (∀ (keys : Keys) (q : Player) (m2 : MatchState),
      (q.isAttacking = true → q.attackTimer > 0) →
      (Player.update keys cv q m2).1.isAttacking = true →
      (Player.update keys cv q m2).1.attackTimer > 0) ∧
    (∀ l : List Keys,
      ((runKeys cv l Game.init).p1.isAttacking = true →
        (runKeys cv l Game.init).p1.attackTimer > 0) ∧
      ((runKeys cv l Game.init).p2.isAttacking = true →
        (runKeys cv l Game.init).p2.attackTimer > 0)) ∧
    (∀ n : Nat, 1 ≤ n → n ≤ 9 →
      (Player.framesWith ks cv n (p, m)).1.isAttacking = true ∧
      (Player.framesWith ks cv n (p, m)).1.attackTimer = ATTACK_DURATION - (n : Int)) ∧
    (∀ n : Nat, 10 ≤ n → n ≤ 30 →
      (Player.framesWith ks cv n (p, m)).1.isAttacking = false) ∧
    (∀ n : Nat, 1 ≤ n → n ≤ 30 →
      (Player.framesWith ks cv n (p, m)).1.attackCooldownTimer
        = ATTACK_COOLDOWN + 1 - (n : Int)) ∧
    (∀ n : Nat, 1 ≤ n → n ≤ 29 →
      (Player.framesWith ks cv n (p, m)).1.cooldowns.attackCooldownTimer ≠ 0) ∧
    (Player.framesWith ks cv 30 (p, m)).1.cooldowns.attackCooldownTimer = 0 := by
  have win := Player.attack_window ks cv p m hs hlive hk hc0 hc1
  have shift : ∀ n : Nat, 1 ≤ n → n ≤ 30 → ∃ k : Nat, n = k + 1 ∧ k ≤ 29 :=
    fun n h1 h2 => ⟨n - 1, by omega, by omega⟩
  have cd : ∀ n : Nat, 1 ≤ n → n ≤ 30 →
      (Player.framesWith ks cv n (p, m)).1.attackCooldownTimer
        = ATTACK_COOLDOWN + 1 - (n : Int) := by
    intro n h1 h2
    obtain ⟨k, rfl, hk29⟩ := shift n h1 h2
    rw [(win k hk29).2.1]
    simp only [ATTACK_COOLDOWN]
    push_cast
    omega
  refine ⟨fun keys q m2 => Player.update_attack_inv keys cv q m2,
    fun l => runKeys_attack_inv cv l, ?_, ?_, cd, ?_, ?_⟩
  · intro n h1 h9
    obtain ⟨k, rfl, hk29⟩ := shift n h1 (by omega)
    obtain ⟨j1, j2⟩ := (win k hk29).2.2.1 h9
    refine ⟨j1, ?_⟩
    rw [j2]
    simp only [ATTACK_DURATION]
    push_cast
    omega
  · intro n h10 h30
    obtain ⟨k, rfl, hk29⟩ := shift n (by omega) h30
    exact (win k hk29).2.2.2 h10
  · intro n h1 h29
    rw [Player.cooldowns_attackCooldownTimer, cd n h1 (by omega)]
    simp only [ATTACK_COOLDOWN]
    split_ifs <;> omega
  · rw [Player.cooldowns_attackCooldownTimer, cd 30 (by omega) (by omega)]
    simp only [ATTACK_COOLDOWN]
    split_ifs with h
    · norm_num
    · exact absurd (by norm_num) h

/-- C19, instance: player 1 as created, with its attack key "q" held on every
frame: attacking with attackTimer 1 after 9 frames, not attacking after 10. -/
theorem C19_attack_window_witness :
    ((Player.framesWith attackHeld arena 9 (p1, MatchState.init)).1.isAttacking = true ∧
      (Player.framesWith attackHeld arena 9 (p1, MatchState.init)).1.attackTimer
        = ATTACK_DURATION - ((9 : Nat) : Int)) ∧
    (Player.framesWith attackHeld arena 10 (p1, MatchState.init)).1.isAttacking = false :=
  ⟨(C19_attack_window attackHeld arena p1 MatchState.init (by decide!) (by decide!)
      (by decide!) (by decide!) (by decide!)).2.2.1 9 (by decide) (by decide),
   (C19_attack_window attackHeld arena p1 MatchState.init (by decide!) (by decide!)
      (by decide!) (by decide!) (by decide!)).2.2.2.1 10 (by decide) (by decide)⟩

/-! ### The spike check of a frame -/

/-- The method `die()` takes one life and calls `updateUI()` once. -/
theorem Player.die_lives_ui (p : Player) (m : MatchState) :
    (p.die m).1.lives = p.lives - 1 ∧ (p.die m).2.uiUpdates = m.uiUpdates + 1 := by
  obtain ⟨x, hr⟩ := Player.respawn_writes { p with lives := p.lives - 1 }
  unfold Player.die
  dsimp only
  by_cases hl : p.lives - 1 ≤ 0
  · rw [if_pos hl]
    exact ⟨rfl, rfl⟩
  · rw [if_neg hl, hr]
    exact ⟨rfl, rfl⟩

/-- C2 (amended): entering a lethal zone costs a life on every frame of a
living, unstunned player: for every key state, if the position produced by
this frame's physics satisfies y < 20 or y + h > height - 20, `Player.update`
calls `die()` exactly once on that player (one `updateUI()` call) and lives
goes down by exactly 1; outside the bands lives and the match state are
unchanged. The frame of a living player that is stunned runs the physics only
and has no spike check: lives and the match state are unchanged wherever the
player ends. -/
theorem C2_unstunned_lethal_zone_costs_life (keys : Keys) (cv : Canvas) (p : Player)
    (m : MatchState) (hl : 0 < p.lives) :
    (¬ p.stunned > 0 → ((p.cooldowns.controls keys).applyPhysics cv).inSpikes cv →
      Player.update keys cv p m = ((p.cooldowns.controls keys).applyPhysics cv).die m ∧
      (Player.update keys cv p m).1.lives = p.lives - 1 ∧
      (Player.update keys cv p m).2.uiUpdates = m.uiUpdates + 1) ∧
    (¬ p.stunned > 0 → ¬ ((p.cooldowns.controls keys).applyPhysics cv).inSpikes cv →
      Player.update keys cv p m = ((p.cooldowns.controls keys).applyPhysics cv, m) ∧
      (Player.update keys cv p m).1.lives = p.lives) ∧
    (p.stunned > 0 →
      (Player.update keys cv p m).1.lives = p.lives ∧
      (Player.update keys cv p m).2 = m) := by
  refine ⟨?_, ?_, ?_⟩
  · intro hs hz
    have e : Player.update keys cv p m
        = ((p.cooldowns.controls keys).applyPhysics cv).die m := by
      rw [Player.update_unstunned keys cv p m hl hs]
      unfold Player.checkSpikes
      rw [if_pos hz]
    have hd := Player.die_lives_ui ((p.cooldowns.controls keys).applyPhysics cv) m
    rw [e]
    refine ⟨rfl, ?_, hd.2⟩
    rw [hd.1, Player.preSpikes_lives]
  · intro hs hz
    have e : Player.update keys cv p m
        = ((p.cooldowns.controls keys).applyPhysics cv, m) := by
      rw [Player.update_unstunned keys cv p m hl hs]
      unfold Player.checkSpikes
      rw [if_neg hz]
    rw [e]
    exact ⟨rfl, Player.preSpikes_lives keys cv p⟩
  · intro hs
    rw [Player.update_stunned keys cv p m hl hs]
    obtain ⟨a, b, hc⟩ := p.cooldowns_writes
    obtain ⟨x, y, vy, hp⟩ := Player.applyPhysics_writes cv
      { p.cooldowns with stunned := p.cooldowns.stunned - 1 }
    refine ⟨?_, rfl⟩
    rw [hp, hc]

/-- C2 (amended), instances: `thrownUp` (unstunned, 3 lives) is carried into the
top band and loses exactly one life; `knockedUp` (the same player, stunned)
keeps its 3 lives. -/
theorem C2_unstunned_lethal_zone_costs_life_witness :
    ((Player.update noKeys arena thrownUp MatchState.init).1.lives = thrownUp.lives - 1 ∧
      (Player.update noKeys arena thrownUp MatchState.init).2.uiUpdates
        = MatchState.init.uiUpdates + 1) ∧
    (Player.update noKeys arena knockedUp MatchState.init).1.lives = knockedUp.lives :=
  ⟨((C2_unstunned_lethal_zone_costs_life noKeys arena thrownUp MatchState.init
      (by decide!)).1 (by decide!) (by decide!)).2,
   ((C2_unstunned_lethal_zone_costs_life noKeys arena knockedUp MatchState.init
      (by decide!)).2.2 (by decide!)).1⟩

end GravitySwapArena
